import Mathlib

/-!
SC4GraphicsOptions: a shallow embedding of the negotiation / override engine.

The development follows the C++ sources of the plugin:

* `Settings.h`, `Settings.cpp`: the configuration resolver (`Settings::Load`);
* `SC4GDriverDescription.h/.cpp`: the driver descriptor registry;
* `GraphicsOptionsDllDirector.cpp`: the preference reconciler in
  `PreFrameWorkInit`, `SetGraphicsOptions`;
* `SC4WindowCreationHooks.cpp`: the window geometry interceptor.

Machine integers (`uint8_t`, `uint32_t`, `int`, `DWORD`) are embedded as `Nat`
or `Int`; the only conversion in the embedded code is the
`static_cast<uint32_t>` of `Settings::Load`, which is modelled with an explicit
reduction modulo `2 ^ 32`.  Host and operating system entry points are modelled
by the values they return and by the list of calls made to them.
-/

namespace SC4GraphicsOptions

/-! ## Data model -/

/-- The window modes of `Settings.h` (`enum class SC4WindowMode`). -/
inductive SC4WindowMode where
  | Windowed
  | FullScreen
  | BorderlessFullScreen
  deriving DecidableEq, Repr

/-- The renderer backends the director switches on (`SC4GraphicsDriverType`).
Modelled from the spec: the declaration of the enumeration is not part of the
sources at hand; its three enumerators are the ones named by the `case` labels of
`DriverTypesMatch`, `PreFrameWorkInit` and `SetGraphicsOptions`. -/
inductive SC4GraphicsDriverType where
  | DirectX
  | OpenGL
  | Software
  deriving DecidableEq, Repr

/-- The video part of the host preferences record (`SC4VideoPreferences`).
Modelled from the spec: `SC4Preferences.h` belongs to the host SDK and is not
part of the sources at hand; the record is reduced to the five fields the
director reads and writes.  `width`, `height` and `bitDepth` are compared with
and assigned from `uint32_t` values, `bFullScreen` is tested with `!= 0` and
`driverType` is passed as a `uint8_t`. -/
structure SC4VideoPreferences where
  width : Nat
  height : Nat
  bitDepth : Nat
  bFullScreen : Nat
  driverType : Nat
  deriving DecidableEq, Repr

/-- The part of the host application (`cISC4App`) the reconciler touches: the
preferences record returned by `GetPreferences` and the number of
`SavePreferences` calls received so far. -/
structure SC4App where
  videoPrefs : SC4VideoPreferences
  savePreferencesCalls : Nat
  deriving DecidableEq, Repr

/-! ## Preference reconciler (`GraphicsOptionsDllDirector.cpp`) -/

/-- The helper `DriverTypesMatch(uint8_t existingDriverType, SC4GraphicsDriverType newDriverType)`.
The `default` label of the C++ switch is unreachable for the three enumerators. -/
def DriverTypesMatch (existingDriverType : Nat) (newDriverType : SC4GraphicsDriverType) : Bool :=
  match newDriverType with
  | .DirectX => existingDriverType != 0
  | .OpenGL => existingDriverType != 0
  | .Software => existingDriverType == 0

/-- The helper `WindowModesMatch(bool isFullScreen, SC4WindowMode windowMode)`. -/
def WindowModesMatch (isFullScreen : Bool) (windowMode : SC4WindowMode) : Bool :=
  match windowMode with
  | .Windowed => !isFullScreen
  | .BorderlessFullScreen => !isFullScreen
  | .FullScreen => isFullScreen

/-- The condition of the `if` statement of `PreFrameWorkInit` (lines 194-198):
some field of the host record differs from the desired configuration. -/
def PreFrameWorkInit.differs (windowWidth windowHeight colorDepth : Nat)
    (windowMode : SC4WindowMode) (driverType : SC4GraphicsDriverType)
    (videoPrefs : SC4VideoPreferences) : Bool :=
  videoPrefs.width != windowWidth
    || videoPrefs.height != windowHeight
    || videoPrefs.bitDepth != colorDepth
    || !WindowModesMatch (videoPrefs.bFullScreen != 0) windowMode
    || !DriverTypesMatch videoPrefs.driverType driverType

/-- The body of the `if` statement of `PreFrameWorkInit` (lines 200-219): the five
assignments followed by `pSC4App->SavePreferences()`. -/
def PreFrameWorkInit.overwrite (windowWidth windowHeight colorDepth : Nat)
    (windowMode : SC4WindowMode) (driverType : SC4GraphicsDriverType)
    (app : SC4App) : SC4App :=
  let p0 := app.videoPrefs
  let p1 := { p0 with width := windowWidth }
  let p2 := { p1 with height := windowHeight }
  let p3 := { p2 with bitDepth := colorDepth }
  let p4 := { p3 with bFullScreen := if windowMode == SC4WindowMode.FullScreen then 1 else 0 }
  let p5 :=
    match driverType with
    | .DirectX => { p4 with driverType := 1 }
    | .OpenGL => { p4 with driverType := 1 }
    | .Software => { p4 with driverType := 0 }
  { videoPrefs := p5, savePreferencesCalls := app.savePreferencesCalls + 1 }

/-- The reconcile step of `PreFrameWorkInit` (lines 188-220) as a function of the
five values read from the settings and of the host application state. -/
def PreFrameWorkInit.reconcile (windowWidth windowHeight colorDepth : Nat)
    (windowMode : SC4WindowMode) (driverType : SC4GraphicsDriverType)
    (app : SC4App) : SC4App :=
  if PreFrameWorkInit.differs windowWidth windowHeight colorDepth windowMode driverType
      app.videoPrefs then
    PreFrameWorkInit.overwrite windowWidth windowHeight colorDepth windowMode driverType app
  else
    app

/-! ## Window geometry interceptor (`SC4WindowCreationHooks.cpp`) -/

/-- A `LPCSTR` argument: `none` is the null pointer, `some s` a pointer to the
NUL-terminated string `s`. -/
abbrev LPCSTR := Option String

/-- A window handle (`HWND`); 0 is `nullptr`. -/
abbrev HWND := Nat

/-- The window style `WS_POPUP` of `WinUser.h`. -/
def WS_POPUP : Nat := 0x80000000

/-- The window style `WS_VISIBLE` of `WinUser.h`. -/
def WS_VISIBLE : Nat := 0x10000000

/-- The window style `WS_MAXIMIZE` of `WinUser.h`. -/
def WS_MAXIMIZE : Nat := 0x01000000

/-- The values `GetSystemMetrics` returns for `SM_CXSCREEN` and `SM_CYSCREEN` (both
`int`): the resolution of the primary display. -/
structure SystemMetrics where
  SM_CXSCREEN : Int
  SM_CYSCREEN : Int
  deriving DecidableEq, Repr

/-- The twelve parameters of `CreateWindowExA`. -/
structure CreateWindowExAArgs where
  dwExStyle : Nat
  lpClassName : LPCSTR
  lpWindowName : LPCSTR
  dwStyle : Nat
  X : Int
  Y : Int
  nWidth : Int
  nHeight : Int
  hWndParent : Nat
  hMenu : Nat
  hInstance : Nat
  lpParam : Nat
  deriving DecidableEq, Repr

/-- The file-level variables `s_WindowMode` and `s_SC4MainWindowHWND`. -/
structure HookState where
  s_WindowMode : SC4WindowMode
  s_SC4MainWindowHWND : HWND
  deriving DecidableEq, Repr

/-- What one run of `HookedCreateWindowExA` does: the new values of the file-level
variables, the calls made to `RealCreateWindowExA` in order, and the handle
returned to the caller. -/
structure CreateWindowExAResult where
  state : HookState
  realCalls : List CreateWindowExAArgs
  returned : HWND

/-- The helper `StringViewEquals`: equal sizes and `boost::equals`, the element by
element comparison of the two character ranges. -/
def StringViewEquals (lhs rhs : String) : Bool :=
  lhs.length == rhs.length && lhs.data == rhs.data

/-- The helper `IsSC4AppWindowClassName`. -/
def IsSC4AppWindowClassName (className : String) : Bool :=
  StringViewEquals className "GDriverClass--DirectX"
    || StringViewEquals className "GDriverClass--OpenGL"
    || StringViewEquals className "GDriverClass--Software"

/-- The helper `IsSC4AppWindowName`. -/
def IsSC4AppWindowName (windowName : String) : Bool :=
  StringViewEquals windowName "GDriverWindow--DirectX"
    || StringViewEquals windowName "GDriverWindow--OpenGL"
    || StringViewEquals windowName "GDriverWindow--Software"

/-- The helper `IsSC4AppWindow`: both pointers non-null, then the window name test
and the class name test. -/
def IsSC4AppWindow (lpClassName lpWindowName : LPCSTR) : Bool :=
  match lpClassName, lpWindowName with
  | some className, some windowName =>
      IsSC4AppWindowName windowName && IsSC4AppWindowClassName className
  | _, _ => false

/-- The hook `HookedCreateWindowExA`.  `RealCreateWindowExA` is the detoured system
function, given by the handle it returns for each argument tuple. -/
def HookedCreateWindowExA (RealCreateWindowExA : CreateWindowExAArgs → HWND)
    (metrics : SystemMetrics) (st : HookState) (args : CreateWindowExAArgs) :
    CreateWindowExAResult :=
  if IsSC4AppWindow args.lpClassName args.lpWindowName then
    let args1 :=
      if st.s_WindowMode == SC4WindowMode.BorderlessFullScreen then
        { args with
          dwStyle := WS_VISIBLE ||| WS_POPUP ||| WS_MAXIMIZE,
          X := 0,
          Y := 0,
          nWidth := metrics.SM_CXSCREEN,
          nHeight := metrics.SM_CYSCREEN }
      else
        args
    let hwnd := RealCreateWindowExA args1
    { state := { st with s_SC4MainWindowHWND := hwnd },
      realCalls := [args1],
      returned := hwnd }
  else
    { state := st,
      realCalls := [args],
      returned := RealCreateWindowExA args }

/-! ## Window position and window show hooks (`SC4WindowCreationHooks.cpp`) -/

/-- The show command `SW_SHOWMAXIMIZED` of `WinUser.h`. -/
def SW_SHOWMAXIMIZED : Int := 3

/-- The two parameters of `ShowWindow`. -/
structure ShowWindowArgs where
  hWnd : HWND
  nCmdShow : Int
  deriving DecidableEq, Repr

/-- What one run of `HookedShowWindow` does: the calls made to `RealShowWindow` in
order and the `BOOL` returned to the caller. -/
structure ShowWindowResult where
  realCalls : List ShowWindowArgs
  returned : Bool

/-- The hook `HookedShowWindow`. -/
def HookedShowWindow (RealShowWindow : ShowWindowArgs → Bool) (st : HookState)
    (args : ShowWindowArgs) : ShowWindowResult :=
  let nCmdShow :=
    if args.hWnd == st.s_SC4MainWindowHWND then
      if st.s_WindowMode == SC4WindowMode.BorderlessFullScreen then
        SW_SHOWMAXIMIZED
      else
        args.nCmdShow
    else
      args.nCmdShow
  let call : ShowWindowArgs := { hWnd := args.hWnd, nCmdShow := nCmdShow }
  { realCalls := [call], returned := RealShowWindow call }

/-! ## Driver descriptor registry (`SC4GDriverDescription.h/.cpp`) -/

/-- The constant `kSCGDriverDirectX` of `GraphicsOptionsDllDirector.cpp`. -/
def kSCGDriverDirectX : Nat := 0xBADB6906

/-- The constant `kSCGDriverOpenGL` of `GraphicsOptionsDllDirector.cpp`. -/
def kSCGDriverOpenGL : Nat := 0xC4554841

/-- The constant `kSCGDriverSoftware` of `GraphicsOptionsDllDirector.cpp`. -/
def kSCGDriverSoftware : Nat := 0x7ACA35C6

/-- Modelled from the spec: the header `SC4GDriverCLSIDDefs.h`, from which
`SC4GDriverDescription.cpp` takes `kSCGDriverDirectX`, is not part of the sources at
hand.  The value is the identifying token of the DirectX driver, the one the
director declares under the same name. -/
def SC4GDriverCLSIDDefs.kSCGDriverDirectX : Nat := 0xBADB6906

/-- Modelled from the spec: the constant `kSCGDriverOpenGL` of the absent header
`SC4GDriverCLSIDDefs.h`, the identifying token of the OpenGL driver. -/
def SC4GDriverCLSIDDefs.kSCGDriverOpenGL : Nat := 0xC4554841

/-- Modelled from the spec: the constant `kSCGDriverSoftware` of the absent header
`SC4GDriverCLSIDDefs.h`, the identifying token of the Software driver. -/
def SC4GDriverCLSIDDefs.kSCGDriverSoftware : Nat := 0x7ACA35C6

/-- The class `SC4GDriverDescription`: its three private members. -/
structure SC4GDriverDescription where
  clsid : Nat
  name : String
  isHardwareDriver : Bool
  deriving DecidableEq, Repr

/-- The singleton `SC4GDriverDescription::DirectX()`. -/
def SC4GDriverDescription.DirectX : SC4GDriverDescription :=
  { clsid := SC4GDriverCLSIDDefs.kSCGDriverDirectX, name := "DirectX", isHardwareDriver := true }

/-- The singleton `SC4GDriverDescription::OpenGL()`. -/
def SC4GDriverDescription.OpenGL : SC4GDriverDescription :=
  { clsid := SC4GDriverCLSIDDefs.kSCGDriverOpenGL, name := "OpenGL", isHardwareDriver := true }

/-- The singleton `SC4GDriverDescription::Software()`. -/
def SC4GDriverDescription.Software : SC4GDriverDescription :=
  { clsid := SC4GDriverCLSIDDefs.kSCGDriverSoftware, name := "Software",
    isHardwareDriver := false }

/-- The accessor `SC4GDriverDescription::GetGZCLSID`. -/
def SC4GDriverDescription.GetGZCLSID (self : SC4GDriverDescription) : Nat :=
  self.clsid

/-- The accessor `SC4GDriverDescription::GetName`. -/
def SC4GDriverDescription.GetName (self : SC4GDriverDescription) : String :=
  self.name

/-- The accessor `SC4GDriverDescription::IsHardwareDriver`. -/
def SC4GDriverDescription.IsHardwareDriver (self : SC4GDriverDescription) : Bool :=
  self.isHardwareDriver

/-! ## Requests to the host graphics system (`SetGraphicsOptions`) -/

/-- The three fields of `cGZDisplayMetrics` the director fills in. -/
structure cGZDisplayMetrics where
  width : Nat
  height : Nat
  bitDepth : Nat
  deriving DecidableEq, Repr

/-- The calls received by the host graphics system services, in order, one list
per entry point. -/
structure GraphicSystemCalls where
  PreInitSetDesiredGameResolution : List cGZDisplayMetrics
  PreInitSetWindowedMode : List Bool
  SetDefaultDriverClassID : List Nat
  deriving DecidableEq, Repr

/-- The switch of `SetGraphicsOptions` (lines 401-415) that chooses
`requestedDriverID`. -/
def SetGraphicsOptions.requestedDriverID (driverType : SC4GraphicsDriverType) : Nat :=
  match driverType with
  | .OpenGL => kSCGDriverOpenGL
  | .Software => kSCGDriverSoftware
  | .DirectX => kSCGDriverDirectX

/-- The method `SetGraphicsOptions`.  `pGS` and `pGS2` tell whether the two service
pointers are non-null; the remaining arguments are the values of the settings
getters. -/
def SetGraphicsOptions (pGS pGS2 : Bool) (windowWidth windowHeight colorDepth : Nat)
    (windowMode : SC4WindowMode) (driverType : SC4GraphicsDriverType)
    (host : GraphicSystemCalls) : GraphicSystemCalls :=
  let host1 :=
    if pGS then
      let metrics : cGZDisplayMetrics :=
        { width := windowWidth, height := windowHeight, bitDepth := colorDepth }
      let windowedMode := windowMode != SC4WindowMode.FullScreen
      { host with
        PreInitSetDesiredGameResolution := host.PreInitSetDesiredGameResolution ++ [metrics],
        PreInitSetWindowedMode := host.PreInitSetWindowedMode ++ [windowedMode] }
    else
      host
  if pGS2 then
    { host1 with
      SetDefaultDriverClassID :=
        host1.SetDefaultDriverClassID ++ [SetGraphicsOptions.requestedDriverID driverType] }
  else
    host1

/-! ## Configuration resolver (`Settings.h`, `Settings.cpp`) -/

/-- The levels of `Logger.h` (`enum class LogLevel`). -/
inductive LogLevel where
  | Info
  | Error
  | Debug
  | Trace
  deriving DecidableEq, Repr

/-- An argument of a `WriteLineFormatted` call. -/
inductive LogArg where
  | str (s : String)
  | uint (n : Nat)
  deriving DecidableEq, Repr

/-- One call of `Logger::WriteLine` or `Logger::WriteLineFormatted`: level, message
or format string, and the variadic arguments. -/
structure LogLine where
  level : LogLevel
  format : String
  args : List LogArg
  deriving DecidableEq, Repr

/-- A parsed `boost::property_tree::ptree`, given by what the three instances of
`tree.get<T>(path)` used by `Settings.cpp` return; `none` stands for the exception
thrown when the path is absent or the data does not convert to `T`. -/
structure ptree where
  get_bool : String → Option Bool
  get_uint32 : String → Option Nat
  get_string : String → Option String

/-- A tree given by its typed entries: `get<T>(path)` returns the entry listed for
`path` among the entries that convert to `T`, and throws when there is none. -/
def ptree.ofEntries (bools : List (String × Bool)) (uints : List (String × Nat))
    (strings : List (String × String)) : ptree :=
  { get_bool := fun path => bools.lookup path,
    get_uint32 := fun path => uints.lookup path,
    get_string := fun path => strings.lookup path }

/-- What `Settings::Load` finds at `path`: a file that cannot be opened, a file
`read_ini` rejects, or a file parsed into a tree. -/
inductive ConfigFile where
  | cannotOpen
  | malformed
  | parsed (tree : ptree)

/-- The exceptions that leave `Settings::Load`. -/
inductive LoadException where
  | runtime_error (what : String)
  | ini_parser_error
  | ptree_error (path : String)
  deriving DecidableEq, Repr

/-- The text `e.what()` of an exception.  The wording boost chooses for its own
exceptions is not reproduced: they are rendered by the name of the exception class
and, for a tree lookup, the path. -/
def LoadException.what (e : LoadException) : String :=
  match e with
  | .runtime_error w => w
  | .ini_parser_error => "ini_parser_error"
  | .ptree_error path => "ptree_error (" ++ path ++ ")"

/-- The loop of `boost::iequals`: both ranges end together and every pair of
elements is equal after `std::toupper`. -/
def iequals : List Char → List Char → Bool
  | [], [] => true
  | a :: as, b :: bs => a.toUpper == b.toUpper && iequals as bs
  | _, _ => false

/-- The loop of `boost::istarts_with`: the test range is exhausted before a pair of
elements differs after `std::toupper`. -/
def istarts_with : List Char → List Char → Bool
  | _, [] => true
  | [], _ :: _ => false
  | a :: as, b :: bs => a.toUpper == b.toUpper && istarts_with as bs

/-- The helper `EqualsIgnoreCase` of `Settings.cpp`. -/
def EqualsIgnoreCase (lhs rhs : String) : Bool :=
  lhs.length == rhs.length && iequals lhs.data rhs.data

/-- The helper `StartsWithIgnoreCase` of `Settings.cpp`. -/
def StartsWithIgnoreCase (lhs rhs : String) : Bool :=
  decide (lhs.length ≥ rhs.length) && istarts_with lhs.data rhs.data

/-- The helper `DriverDescriptionFromProperty`: `none` when `tree.get` throws,
otherwise the descriptor and the lines logged. -/
def DriverDescriptionFromProperty (tree : ptree) (propertyPath : String) :
    Option (SC4GDriverDescription × List LogLine) :=
  match tree.get_string propertyPath with
  | none => none
  | some value =>
    if EqualsIgnoreCase value "DirectX" then
      some (SC4GDriverDescription.DirectX, [])
    else if EqualsIgnoreCase value "OpenGL" || EqualsIgnoreCase value "SCGL" then
      some (SC4GDriverDescription.OpenGL, [])
    else if StartsWithIgnoreCase value "Soft" then
      some (SC4GDriverDescription.Software, [])
    else
      some (SC4GDriverDescription.DirectX,
        [{ level := LogLevel.Error,
           format := "Unknown Driver value '%s', falling back to DirectX.",
           args := [LogArg.str value] }])

/-- The helper `WindowModeFromProperty`: `none` when `tree.get` throws, otherwise
the window mode and the lines logged. -/
def WindowModeFromProperty (tree : ptree) (propertyPath : String) :
    Option (SC4WindowMode × List LogLine) :=
  match tree.get_string propertyPath with
  | none => none
  | some value =>
    if EqualsIgnoreCase value "Windowed" then
      some (SC4WindowMode.Windowed, [])
    else if EqualsIgnoreCase value "FullScreen" then
      some (SC4WindowMode.FullScreen, [])
    else if StartsWithIgnoreCase value "Borderless" then
      some (SC4WindowMode.BorderlessFullScreen, [])
    else
      some (SC4WindowMode.Windowed,
        [{ level := LogLevel.Error,
           format := "Unknown WindowMode value '%s', falling back to Windowed.",
           args := [LogArg.str value] }])

/-- The data members of the class `Settings`. -/
structure Settings where
  enableIntroVideo : Bool
  pauseGameOnFocusLoss : Bool
  driverDescription : SC4GDriverDescription
  windowWidth : Nat
  windowHeight : Nat
  colorDepth : Nat
  windowMode : SC4WindowMode
  deriving DecidableEq, Repr

/-- The constructor `Settings::Settings()`: the built-in defaults. -/
def Settings.ctor : Settings :=
  { enableIntroVideo := true,
    pauseGameOnFocusLoss := false,
    driverDescription := SC4GDriverDescription.DirectX,
    windowWidth := 1024,
    windowHeight := 768,
    colorDepth := 32,
    windowMode := SC4WindowMode.Windowed }

/-- The conversion `static_cast<uint32_t>` applied to an `int`. -/
def static_cast_uint32_t (i : Int) : Nat :=
  (i % 4294967296).toNat

/-- What one run of `Settings::Load` leaves behind: the exception that left the
method (`none` for a normal return), the data members of the object, and the
lines logged. -/
structure LoadResult where
  thrown : Option LoadException
  settings : Settings
  log : List LogLine
  deriving DecidableEq, Repr

/-- The windowed branch of `Settings::Load` after both dimensions were read
(lines 156-179): the below-minimum test, else the larger-than-monitor test. -/
def Settings.Load.windowed (self : Settings) (primaryMonitorWidth primaryMonitorHeight : Nat)
    (log : List LogLine) : LoadResult :=
  if self.windowWidth < 800 || self.windowHeight < 600 then
    { thrown := none,
      settings := { self with windowWidth := 800, windowHeight := 600 },
      log := log ++
        [{ level := LogLevel.Error,
           format := "The window dimensions must be at least 800x600, defaulting to 800x600.",
           args := [LogArg.uint primaryMonitorWidth, LogArg.uint primaryMonitorHeight] }] }
  else if self.windowWidth > primaryMonitorWidth || self.windowHeight > primaryMonitorHeight then
    { thrown := none,
      settings :=
        { self with
          windowWidth := primaryMonitorWidth,
          windowHeight := primaryMonitorHeight,
          windowMode := SC4WindowMode.BorderlessFullScreen },
      log := log ++
        [{ level := LogLevel.Error,
           format := "The window dimensions are larger than the monitor size, switching"
             ++ "to borderless full screen mode with a resolution of %ux%u.",
           args := [LogArg.uint primaryMonitorWidth, LogArg.uint primaryMonitorHeight] }] }
  else
    { thrown := none, settings := self, log := log }

/-- The part of `Settings::Load` from the colour depth test on (lines 139-187);
`self` already holds the value read for `colorDepth`. -/
def Settings.Load.dimensions (self : Settings) (tree : ptree) (metrics : SystemMetrics)
    (log : List LogLine) : LoadResult :=
  let depthOk : Bool := !(self.colorDepth != 16 && self.colorDepth != 32)
  let log1 :=
    if depthOk then log
    else log ++
      [{ level := LogLevel.Error,
         format := "Unsupported color depth value %d, must be one of 16 or 32. Defaulting to 32.",
         args := [LogArg.uint self.colorDepth] }]
  let s1 := if depthOk then self else { self with colorDepth := 32 }
  let primaryMonitorWidth := static_cast_uint32_t metrics.SM_CXSCREEN
  let primaryMonitorHeight := static_cast_uint32_t metrics.SM_CYSCREEN
  if s1.windowMode == SC4WindowMode.Windowed then
    match tree.get_uint32 "GraphicsOptions.WindowWidth" with
    | none =>
      { thrown := some (LoadException.ptree_error "GraphicsOptions.WindowWidth"),
        settings := s1, log := log1 }
    | some w =>
      let s2 := { s1 with windowWidth := w }
      match tree.get_uint32 "GraphicsOptions.WindowHeight" with
      | none =>
        { thrown := some (LoadException.ptree_error "GraphicsOptions.WindowHeight"),
          settings := s2, log := log1 }
      | some h =>
        Settings.Load.windowed { s2 with windowHeight := h }
          primaryMonitorWidth primaryMonitorHeight log1
  else
    { thrown := none,
      settings :=
        { s1 with windowWidth := primaryMonitorWidth, windowHeight := primaryMonitorHeight },
      log := log1 }

/-- The method `Settings::Load`.  The data members are assigned one by one in the
order of the source, so the object returned with an exception holds the
assignments made before the throwing statement. -/
def Settings.Load (self : Settings) (file : ConfigFile) (metrics : SystemMetrics) :
    LoadResult :=
  match file with
  | .cannotOpen =>
    { thrown := some (LoadException.runtime_error "Failed to open the settings file."),
      settings := self, log := [] }
  | .malformed =>
    { thrown := some LoadException.ini_parser_error, settings := self, log := [] }
  | .parsed tree =>
    match tree.get_bool "GraphicsOptions.EnableIntroVideo" with
    | none =>
      { thrown := some (LoadException.ptree_error "GraphicsOptions.EnableIntroVideo"),
        settings := self, log := [] }
    | some introVideo =>
      let s1 := { self with enableIntroVideo := introVideo }
      match tree.get_bool "GraphicsOptions.PauseGameOnFocusLoss" with
      | none =>
        { thrown := some (LoadException.ptree_error "GraphicsOptions.PauseGameOnFocusLoss"),
          settings := s1, log := [] }
      | some pause =>
        let s2 := { s1 with pauseGameOnFocusLoss := pause }
        match DriverDescriptionFromProperty tree "GraphicsOptions.Driver" with
        | none =>
          { thrown := some (LoadException.ptree_error "GraphicsOptions.Driver"),
            settings := s2, log := [] }
        | some (description, log1) =>
          let s3 := { s2 with driverDescription := description }
          match WindowModeFromProperty tree "GraphicsOptions.WindowMode" with
          | none =>
            { thrown := some (LoadException.ptree_error "GraphicsOptions.WindowMode"),
              settings := s3, log := log1 }
          | some (mode, log2) =>
            let s4 := { s3 with windowMode := mode }
            match tree.get_uint32 "GraphicsOptions.ColorDepth" with
            | none =>
              { thrown := some (LoadException.ptree_error "GraphicsOptions.ColorDepth"),
                settings := s4, log := log1 ++ log2 }
            | some depth =>
              Settings.Load.dimensions { s4 with colorDepth := depth } tree metrics
                (log1 ++ log2)

/-- The constructor `GraphicsOptionsDllDirector()` as far as the member `settings`
and the log are concerned: `settings` is default constructed, `Load` runs inside
the `try` block, and the handler logs the exception and returns normally.  The
result is the `settings` member the director keeps and the lines logged. -/
def GraphicsOptionsDllDirector.ctor (file : ConfigFile) (metrics : SystemMetrics) :
    Settings × List LogLine :=
  let r := Settings.Load Settings.ctor file metrics
  match r.thrown with
  | none => (r.settings, r.log)
  | some e => (r.settings, r.log ++ [{ level := LogLevel.Error, format := e.what, args := [] }])

/-! ## Compatibility patcher and post-init verifier (`GraphicsOptionsDllDirector.cpp`) -/

/-- The helper `OverwriteMemory(address, newValue)`.  `virtualProtect` tells whether
`VirtualProtect` succeeds on the page of `address`; on failure
`THROW_IF_WIN32_BOOL_FALSE` throws and nothing is written, otherwise the byte
`newValue` is stored at `address`. -/
def OverwriteMemory (virtualProtect : Nat → Bool) (address newValue : Nat) :
    Except String (Nat × Nat) :=
  if virtualProtect address then
    Except.ok (address, newValue)
  else
    Except.error "VirtualProtect"

/-- What one run of `FixFullScreen32BitColorDepth` does: the calls of
`OverwriteMemory` (address, value), the bytes stored in the memory of the process
(address, value), and the lines logged. -/
structure FixColorDepthResult where
  overwriteMemoryCalls : List (Nat × Nat)
  memoryWrites : List (Nat × Nat)
  log : List LogLine
  deriving DecidableEq, Repr

/-- The method `FixFullScreen32BitColorDepth`.  The first three arguments are the
values of the settings getters, `gameVersion` is the `uint16_t` returned by
`SC4VersionDetection::GetGameVersion`, and `virtualProtect` is the outcome of the
system call made by `OverwriteMemory`. -/
def FixFullScreen32BitColorDepth (driverType : SC4GraphicsDriverType)
    (windowMode : SC4WindowMode) (colorDepth : Nat) (gameVersion : Nat)
    (virtualProtect : Nat → Bool) : FixColorDepthResult :=
  if driverType == SC4GraphicsDriverType.DirectX
      && windowMode == SC4WindowMode.FullScreen
      && colorDepth == 32 then
    if gameVersion == 641 then
      match OverwriteMemory virtualProtect 0x887738 32 with
      | .ok write =>
        { overwriteMemoryCalls := [(0x887738, 32)],
          memoryWrites := [write],
          log :=
            [{ level := LogLevel.Info,
               format := "Forced the DirectX full screen color depth to 32-bit.",
               args := [] }] }
      | .error what =>
        { overwriteMemoryCalls := [(0x887738, 32)],
          memoryWrites := [],
          log :=
            [{ level := LogLevel.Error,
               format := "Failed to force the DirectX full screen color depth to 32-bit: %s",
               args := [LogArg.str what] }] }
    else
      { overwriteMemoryCalls := [],
        memoryWrites := [],
        log :=
          [{ level := LogLevel.Error,
             format := "Unable to force the DirectX full screen color depth to 32-bit. Requires "
               ++ "game version 641, found game version %d.",
             args := [LogArg.uint gameVersion] }] }
  else
    { overwriteMemoryCalls := [], memoryWrites := [], log := [] }

/-- The live state `VerifyGraphicsOptions` reads from the graphic system service:
the result of `GetGameMetrics` and of `IsFullScreenMode`. -/
structure GraphicSystemState where
  gameMetrics : cGZDisplayMetrics
  isFullScreenMode : Bool
  deriving DecidableEq, Repr

/-- The first block of `VerifyGraphicsOptions` (lines 427-457): the comparison of
the live metrics and full screen state with the requested ones.  `pGS` is `none`
when the service pointer is null. -/
def VerifyGraphicsOptions.geometry (pGS : Option GraphicSystemState)
    (requestedWidth requestedHeight requestedBitDepth : Nat) (windowMode : SC4WindowMode) :
    List LogLine :=
  match pGS with
  | none => []
  | some gs =>
    let gameMetrics := gs.gameMetrics
    let isFullScreen := gs.isFullScreenMode
    if gameMetrics.width != requestedWidth
        || gameMetrics.height != requestedHeight
        || gameMetrics.bitDepth != requestedBitDepth
        || !WindowModesMatch isFullScreen windowMode then
      [{ level := LogLevel.Error,
         format := "SC4's graphics options (%ux%ux%u, %s) doesn't match the requested "
           ++ "options (%ux%ux%u, %s).",
         args :=
           [LogArg.uint gameMetrics.width,
            LogArg.uint gameMetrics.height,
            LogArg.uint gameMetrics.bitDepth,
            LogArg.str (if isFullScreen then "full screen" else "windowed"),
            LogArg.uint requestedWidth,
            LogArg.uint requestedHeight,
            LogArg.uint requestedBitDepth,
            LogArg.str
              (if windowMode == SC4WindowMode.FullScreen then "full screen" else "windowed")] }]
    else
      []

/-- The switch of `VerifyGraphicsOptions` (lines 470-485) that chooses
`requestedDriverID` and `driverName`. -/
def VerifyGraphicsOptions.requestedDriver (driverType : SC4GraphicsDriverType) :
    Nat × String :=
  match driverType with
  | .OpenGL => (kSCGDriverOpenGL, "OpenGL")
  | .Software => (kSCGDriverSoftware, "Software")
  | .DirectX => (kSCGDriverDirectX, "DirectX")

/-- The second block of `VerifyGraphicsOptions` (lines 459-497): the comparison of
the class id of the active driver with the requested one.  `pGS2` is `none` when
the service pointer is null, `some none` when `GetGDriver` returns null, and
`some (some id)` when the active driver answers `GetGZCLSID` with `id`. -/
def VerifyGraphicsOptions.driver (pGS2 : Option (Option Nat))
    (driverType : SC4GraphicsDriverType) : List LogLine :=
  match pGS2 with
  | none => []
  | some none => []
  | some (some currentDriverID) =>
    let requested := VerifyGraphicsOptions.requestedDriver driverType
    if currentDriverID != requested.1 then
      [{ level := LogLevel.Error,
         format := "Failed to set the game's driver to %s.",
         args := [LogArg.str requested.2] }]
    else
      []

/-- The method `VerifyGraphicsOptions`: the lines logged by its two blocks, in
order. -/
def VerifyGraphicsOptions (pGS : Option GraphicSystemState) (pGS2 : Option (Option Nat))
    (windowWidth windowHeight colorDepth : Nat) (windowMode : SC4WindowMode)
    (driverType : SC4GraphicsDriverType) : List LogLine :=
  VerifyGraphicsOptions.geometry pGS windowWidth windowHeight colorDepth windowMode
    ++ VerifyGraphicsOptions.driver pGS2 driverType

/-! ## Theorems: preference reconciler -/

/-- After the overwrite of `PreFrameWorkInit` the comparison finds no difference. -/
theorem differs_overwrite (w h d : Nat) (m : SC4WindowMode) (t : SC4GraphicsDriverType)
    (app : SC4App) :
    PreFrameWorkInit.differs w h d m t
      (PreFrameWorkInit.overwrite w h d m t app).videoPrefs = false := by
  cases m <;> cases t <;>
    simp [PreFrameWorkInit.differs, PreFrameWorkInit.overwrite, WindowModesMatch,
      DriverTypesMatch]

/-- After one reconcile step the comparison finds no difference. -/
theorem differs_reconcile (w h d : Nat) (m : SC4WindowMode) (t : SC4GraphicsDriverType)
    (app : SC4App) :
    PreFrameWorkInit.differs w h d m t
      (PreFrameWorkInit.reconcile w h d m t app).videoPrefs = false := by
  unfold PreFrameWorkInit.reconcile
  by_cases hd : PreFrameWorkInit.differs w h d m t app.videoPrefs = true
  · rw [if_pos hd]
    exact differs_overwrite w h d m t app
  · rw [if_neg hd]
    simpa using hd

/-- C1: the reconcile step of `PreFrameWorkInit` is idempotent.  For every desired
configuration and every initial host state, after one run a second run with the
same desired configuration finds no difference, leaves the preferences record
unchanged and makes no call to `SavePreferences` (the whole host state, call
counter included, is the one the first run left). -/
theorem reconcile_idempotent (w h d : Nat) (m : SC4WindowMode) (t : SC4GraphicsDriverType)
    (app : SC4App) :
    PreFrameWorkInit.differs w h d m t
        (PreFrameWorkInit.reconcile w h d m t app).videoPrefs = false
      ∧ (PreFrameWorkInit.reconcile w h d m t
          (PreFrameWorkInit.reconcile w h d m t app)).videoPrefs
        = (PreFrameWorkInit.reconcile w h d m t app).videoPrefs
      ∧ (PreFrameWorkInit.reconcile w h d m t
          (PreFrameWorkInit.reconcile w h d m t app)).savePreferencesCalls
        = (PreFrameWorkInit.reconcile w h d m t app).savePreferencesCalls := by
  have hd := differs_reconcile w h d m t app
  have hfix : PreFrameWorkInit.reconcile w h d m t (PreFrameWorkInit.reconcile w h d m t app)
      = PreFrameWorkInit.reconcile w h d m t app := by
    generalize PreFrameWorkInit.reconcile w h d m t app = app1 at hd ⊢
    unfold PreFrameWorkInit.reconcile
    rw [hd]
    simp
  exact ⟨hd, by rw [hfix], by rw [hfix]⟩

/-- C2 (counterexample): with "effective full-screen flag" read as in the
specification (`FullScreen` and `BorderlessFullScreen` both mean full screen), the
claim fails in both directions for the desired mode `BorderlessFullScreen`.  A host
record equal to the desired 1920x1080x32 DirectX configuration with its full-screen
flag set matches on all five counts, yet it is overwritten (flag cleared) and saved
once; the same record with the flag clear differs in the full-screen flag, yet it
is neither modified nor saved. -/
theorem borderless_request_writes_against_spec_flag :
    ((1920 = 1920 ∧ 1080 = 1080 ∧ 32 = 32
          ∧ ((1 : Nat) ≠ 0 ↔
              SC4WindowMode.BorderlessFullScreen = SC4WindowMode.FullScreen
                ∨ SC4WindowMode.BorderlessFullScreen = SC4WindowMode.BorderlessFullScreen)
          ∧ ((1 : Nat) ≠ 0 ↔ SC4GraphicsDriverType.DirectX ≠ SC4GraphicsDriverType.Software))
        ∧ PreFrameWorkInit.reconcile 1920 1080 32 SC4WindowMode.BorderlessFullScreen
            SC4GraphicsDriverType.DirectX
            { videoPrefs :=
                { width := 1920, height := 1080, bitDepth := 32, bFullScreen := 1,
                  driverType := 1 },
              savePreferencesCalls := 0 }
          = { videoPrefs :=
                { width := 1920, height := 1080, bitDepth := 32, bFullScreen := 0,
                  driverType := 1 },
              savePreferencesCalls := 1 })
      ∧ (¬ ((0 : Nat) ≠ 0 ↔
              SC4WindowMode.BorderlessFullScreen = SC4WindowMode.FullScreen
                ∨ SC4WindowMode.BorderlessFullScreen = SC4WindowMode.BorderlessFullScreen)
        ∧ PreFrameWorkInit.reconcile 1920 1080 32 SC4WindowMode.BorderlessFullScreen
            SC4GraphicsDriverType.DirectX
            { videoPrefs :=
                { width := 1920, height := 1080, bitDepth := 32, bFullScreen := 0,
                  driverType := 1 },
              savePreferencesCalls := 0 }
          = { videoPrefs :=
                { width := 1920, height := 1080, bitDepth := 32, bFullScreen := 0,
                  driverType := 1 },
              savePreferencesCalls := 0 }) := by
  decide

/-- C2 (amended): write-iff-differs.  If width, height and bit depth of the host
record equal the desired values, the full-screen flag of the host record is set
exactly when the desired mode is `FullScreen` (so `BorderlessFullScreen`, like
`Windowed`, asks for a clear flag) and the driver flag is non-zero exactly for the
DirectX and OpenGL backends, the host state is returned untouched (no field
modified, no `SavePreferences` call).  Otherwise the five fields are overwritten
(width, height and bit depth with the desired values, the full-screen flag with 1
for `FullScreen` and 0 for `Windowed` and `BorderlessFullScreen`, the driver flag
with 1 for DirectX and OpenGL and 0 for Software) and `SavePreferences` is called
exactly once. -/
theorem reconcile_write_iff_differs (w h d : Nat) (m : SC4WindowMode)
    (t : SC4GraphicsDriverType) (app : SC4App) :
    PreFrameWorkInit.reconcile w h d m t app =
      if app.videoPrefs.width = w ∧ app.videoPrefs.height = h ∧ app.videoPrefs.bitDepth = d
          ∧ (app.videoPrefs.bFullScreen ≠ 0 ↔ m = SC4WindowMode.FullScreen)
          ∧ (app.videoPrefs.driverType ≠ 0 ↔ t ≠ SC4GraphicsDriverType.Software) then
        app
      else
        { videoPrefs :=
            { width := w, height := h, bitDepth := d,
              bFullScreen := if m = SC4WindowMode.FullScreen then 1 else 0,
              driverType := if t = SC4GraphicsDriverType.Software then 0 else 1 },
          savePreferencesCalls := app.savePreferencesCalls + 1 } := by
  obtain ⟨⟨pw, ph, pd, pf, pt⟩, n⟩ := app
  by_cases h1 : pw = w <;> by_cases h2 : ph = h <;> by_cases h3 : pd = d <;>
    by_cases h4 : pt = 0 <;> by_cases h5 : pf = 0 <;> cases t <;> cases m <;>
    simp_all [PreFrameWorkInit.reconcile, PreFrameWorkInit.differs,
      PreFrameWorkInit.overwrite, DriverTypesMatch, WindowModesMatch]

/-- C3 (counterexample): for the desired mode `BorderlessFullScreen` and a host
record whose full-screen flag is set, `WindowModesMatch` does not hold, and the
flag the overwrite stores for `BorderlessFullScreen` is 0, not 1. -/
theorem borderless_is_not_effective_full_screen :
    ¬ (WindowModesMatch true SC4WindowMode.BorderlessFullScreen = true ↔ true = true)
      ∧ (PreFrameWorkInit.reconcile 1920 1080 32 SC4WindowMode.BorderlessFullScreen
          SC4GraphicsDriverType.DirectX
          { videoPrefs :=
              { width := 1920, height := 1080, bitDepth := 32, bFullScreen := 1,
                driverType := 1 },
            savePreferencesCalls := 0 }).videoPrefs.bFullScreen = 0 := by
  decide

/-- C3 (amended): only `FullScreen` counts as "is full screen".  For the desired mode
`FullScreen`, `WindowModesMatch isFullScreen mode` holds exactly when `isFullScreen`
is true and the flag stored on overwrite is 1; for `Windowed` and for
`BorderlessFullScreen` it holds exactly when `isFullScreen` is false and the flag
stored on overwrite is 0. -/
theorem effective_full_screen_flag (w h d : Nat) (m : SC4WindowMode)
    (t : SC4GraphicsDriverType) (app : SC4App) (isFullScreen : Bool)
    (hdiff : PreFrameWorkInit.differs w h d m t app.videoPrefs = true) :
    (m = SC4WindowMode.FullScreen →
        (WindowModesMatch isFullScreen m = true ↔ isFullScreen = true)
          ∧ (PreFrameWorkInit.reconcile w h d m t app).videoPrefs.bFullScreen = 1)
      ∧ (m = SC4WindowMode.Windowed ∨ m = SC4WindowMode.BorderlessFullScreen →
        (WindowModesMatch isFullScreen m = true ↔ isFullScreen = false)
          ∧ (PreFrameWorkInit.reconcile w h d m t app).videoPrefs.bFullScreen = 0) := by
  unfold PreFrameWorkInit.reconcile
  rw [if_pos hdiff]
  cases m <;> cases t <;> simp [PreFrameWorkInit.overwrite, WindowModesMatch]

/-- C3 (witness): the amended statement at a host record in full-screen state with
the desired mode `BorderlessFullScreen`. -/
theorem effective_full_screen_flag_witness :
    (SC4WindowMode.BorderlessFullScreen = SC4WindowMode.FullScreen →
        (WindowModesMatch true SC4WindowMode.BorderlessFullScreen = true ↔ true = true)
          ∧ (PreFrameWorkInit.reconcile 1920 1080 32 SC4WindowMode.BorderlessFullScreen
              SC4GraphicsDriverType.DirectX
              ⟨⟨1920, 1080, 32, 1, 1⟩, 0⟩).videoPrefs.bFullScreen = 1)
      ∧ (SC4WindowMode.BorderlessFullScreen = SC4WindowMode.Windowed
          ∨ SC4WindowMode.BorderlessFullScreen = SC4WindowMode.BorderlessFullScreen →
        (WindowModesMatch true SC4WindowMode.BorderlessFullScreen = true ↔ true = false)
          ∧ (PreFrameWorkInit.reconcile 1920 1080 32 SC4WindowMode.BorderlessFullScreen
              SC4GraphicsDriverType.DirectX
              ⟨⟨1920, 1080, 32, 1, 1⟩, 0⟩).videoPrefs.bFullScreen = 0) :=
  effective_full_screen_flag 1920 1080 32 SC4WindowMode.BorderlessFullScreen
    SC4GraphicsDriverType.DirectX ⟨⟨1920, 1080, 32, 1, 1⟩, 0⟩ true (by decide)

/-! ## Theorems: window geometry interceptor -/

/-- The comparison `StringViewEquals` is equality of strings. -/
theorem StringViewEquals_iff (lhs rhs : String) :
    StringViewEquals lhs rhs = true ↔ lhs = rhs := by
  unfold StringViewEquals
  constructor
  · intro h
    simp only [Bool.and_eq_true, beq_iff_eq] at h
    exact String.ext h.2
  · intro h
    subst h
    simp

/-- The class name test accepts exactly the three driver class names. -/
theorem IsSC4AppWindowClassName_iff (className : String) :
    IsSC4AppWindowClassName className = true ↔
      className = "GDriverClass--DirectX" ∨ className = "GDriverClass--OpenGL"
        ∨ className = "GDriverClass--Software" := by
  simp only [IsSC4AppWindowClassName, Bool.or_eq_true, StringViewEquals_iff, or_assoc]

/-- The window name test accepts exactly the three driver window titles. -/
theorem IsSC4AppWindowName_iff (windowName : String) :
    IsSC4AppWindowName windowName = true ↔
      windowName = "GDriverWindow--DirectX" ∨ windowName = "GDriverWindow--OpenGL"
        ∨ windowName = "GDriverWindow--Software" := by
  simp only [IsSC4AppWindowName, Bool.or_eq_true, StringViewEquals_iff, or_assoc]

/-- The main window test: a title among the three driver titles and a class among
the three driver classes, both pointers non-null. -/
theorem IsSC4AppWindow_iff (lpClassName lpWindowName : LPCSTR) :
    IsSC4AppWindow lpClassName lpWindowName = true ↔
      (lpWindowName = some "GDriverWindow--DirectX"
          ∨ lpWindowName = some "GDriverWindow--OpenGL"
          ∨ lpWindowName = some "GDriverWindow--Software")
        ∧ (lpClassName = some "GDriverClass--DirectX"
          ∨ lpClassName = some "GDriverClass--OpenGL"
          ∨ lpClassName = some "GDriverClass--Software") := by
  cases lpClassName with
  | none => simp [IsSC4AppWindow]
  | some c =>
    cases lpWindowName with
    | none => simp [IsSC4AppWindow]
    | some w =>
      simp only [IsSC4AppWindow, Bool.and_eq_true, IsSC4AppWindowName_iff,
        IsSC4AppWindowClassName_iff, Option.some.injEq]

/-- C4 (counterexample): in `BorderlessFullScreen` mode a call with the class of the
DirectX driver and the title of the OpenGL driver, which is none of the three
same-driver pairs, is not passed through: style, position and size of the
delegated call differ from the requested ones. -/
theorem mixed_pair_is_not_passed_through :
    ¬ ((some "GDriverClass--DirectX", some "GDriverWindow--OpenGL") ∈
        [((some "GDriverClass--DirectX" : LPCSTR), (some "GDriverWindow--DirectX" : LPCSTR)),
          (some "GDriverClass--OpenGL", some "GDriverWindow--OpenGL"),
          (some "GDriverClass--Software", some "GDriverWindow--Software")])
      ∧ (HookedCreateWindowExA (fun _ => 7) ⟨1920, 1080⟩
          ⟨SC4WindowMode.BorderlessFullScreen, 0⟩
          ⟨0, some "GDriverClass--DirectX", some "GDriverWindow--OpenGL", 0x00CF0000,
            100, 50, 1024, 768, 0, 0, 0, 0⟩).realCalls
        = [⟨0, some "GDriverClass--DirectX", some "GDriverWindow--OpenGL", 0x91000000,
            0, 0, 1920, 1080, 0, 0, 0, 0⟩]
      ∧ (HookedCreateWindowExA (fun _ => 7) ⟨1920, 1080⟩
          ⟨SC4WindowMode.BorderlessFullScreen, 0⟩
          ⟨0, some "GDriverClass--DirectX", some "GDriverWindow--OpenGL", 0x00CF0000,
            100, 50, 1024, 768, 0, 0, 0, 0⟩).realCalls
        ≠ [⟨0, some "GDriverClass--DirectX", some "GDriverWindow--OpenGL", 0x00CF0000,
            100, 50, 1024, 768, 0, 0, 0, 0⟩] := by
  decide

/-- C4 (amended): a window-create call is delegated exactly once with all twelve
parameters as requested, and the handle of the real call is returned, unless the
installed mode is `BorderlessFullScreen` and the title is one of the three driver
titles and the class is one of the three driver class names.  So in `Windowed` and
`FullScreen` mode every call passes through, the title of one driver with the
class of another included; in `BorderlessFullScreen` mode every call with a null
pointer, a case variant or any other title or class passes through, and only a
title/class match (of the same driver or not) is rewritten.  The installed mode is
never changed. -/
theorem create_window_pass_through (RealCreateWindowExA : CreateWindowExAArgs → HWND)
    (metrics : SystemMetrics) (st : HookState) (args : CreateWindowExAArgs)
    (hno : ¬ (st.s_WindowMode = SC4WindowMode.BorderlessFullScreen
            ∧ (args.lpWindowName = some "GDriverWindow--DirectX"
              ∨ args.lpWindowName = some "GDriverWindow--OpenGL"
              ∨ args.lpWindowName = some "GDriverWindow--Software")
            ∧ (args.lpClassName = some "GDriverClass--DirectX"
              ∨ args.lpClassName = some "GDriverClass--OpenGL"
              ∨ args.lpClassName = some "GDriverClass--Software"))) :
    (HookedCreateWindowExA RealCreateWindowExA metrics st args).realCalls = [args]
      ∧ (HookedCreateWindowExA RealCreateWindowExA metrics st args).returned
          = RealCreateWindowExA args
      ∧ (HookedCreateWindowExA RealCreateWindowExA metrics st args).state.s_WindowMode
          = st.s_WindowMode := by
  unfold HookedCreateWindowExA
  by_cases hf : IsSC4AppWindow args.lpClassName args.lpWindowName = true
  · have hmode : ¬ st.s_WindowMode = SC4WindowMode.BorderlessFullScreen := by
      intro hb
      exact hno ⟨hb, (IsSC4AppWindow_iff _ _).1 hf⟩
    have hbeq : (st.s_WindowMode == SC4WindowMode.BorderlessFullScreen) = false := by
      rw [beq_eq_false_iff_ne]
      exact hmode
    rw [if_pos hf]
    simp [hbeq]
  · rw [if_neg hf]
    exact ⟨rfl, rfl, rfl⟩

/-- C4 (witness): in `Windowed` mode a call with the class of the DirectX driver and
the title of the OpenGL driver is passed through with the requested style, position
and size. -/
theorem create_window_pass_through_witness :
    (HookedCreateWindowExA (fun _ => 7) ⟨1920, 1080⟩ ⟨SC4WindowMode.Windowed, 3⟩
        ⟨0, some "GDriverClass--DirectX", some "GDriverWindow--OpenGL", 0x00CF0000,
          100, 50, 1024, 768, 0, 0, 0, 0⟩).realCalls
        = [⟨0, some "GDriverClass--DirectX", some "GDriverWindow--OpenGL", 0x00CF0000,
          100, 50, 1024, 768, 0, 0, 0, 0⟩]
      ∧ (HookedCreateWindowExA (fun _ => 7) ⟨1920, 1080⟩ ⟨SC4WindowMode.Windowed, 3⟩
          ⟨0, some "GDriverClass--DirectX", some "GDriverWindow--OpenGL", 0x00CF0000,
            100, 50, 1024, 768, 0, 0, 0, 0⟩).returned
        = (fun _ => 7)
          (⟨0, some "GDriverClass--DirectX", some "GDriverWindow--OpenGL", 0x00CF0000,
            100, 50, 1024, 768, 0, 0, 0, 0⟩ : CreateWindowExAArgs)
      ∧ (HookedCreateWindowExA (fun _ => 7) ⟨1920, 1080⟩ ⟨SC4WindowMode.Windowed, 3⟩
          ⟨0, some "GDriverClass--DirectX", some "GDriverWindow--OpenGL", 0x00CF0000,
            100, 50, 1024, 768, 0, 0, 0, 0⟩).state.s_WindowMode
        = SC4WindowMode.Windowed :=
  create_window_pass_through (fun _ => 7) ⟨1920, 1080⟩ ⟨SC4WindowMode.Windowed, 3⟩
    ⟨0, some "GDriverClass--DirectX", some "GDriverWindow--OpenGL", 0x00CF0000,
      100, 50, 1024, 768, 0, 0, 0, 0⟩ (by decide)

/-- C5: while the installed mode is `BorderlessFullScreen`, a window-create call with
the class and title of the DirectX driver (likewise of the OpenGL and of the
Software driver) is delegated exactly once with style `WS_VISIBLE|WS_POPUP|WS_MAXIMIZE`
(the value 0x91000000, whatever style was requested), position (0, 0) and the size
returned by `GetSystemMetrics` for the primary display; extended style, class, title,
parent, menu, instance and creation parameter are the requested ones. -/
theorem create_window_borderless_rewrite (RealCreateWindowExA : CreateWindowExAArgs → HWND)
    (metrics : SystemMetrics) (st : HookState) (args : CreateWindowExAArgs)
    (hmode : st.s_WindowMode = SC4WindowMode.BorderlessFullScreen)
    (hpair : (args.lpClassName = some "GDriverClass--DirectX"
              ∧ args.lpWindowName = some "GDriverWindow--DirectX")
            ∨ (args.lpClassName = some "GDriverClass--OpenGL"
              ∧ args.lpWindowName = some "GDriverWindow--OpenGL")
            ∨ (args.lpClassName = some "GDriverClass--Software"
              ∧ args.lpWindowName = some "GDriverWindow--Software")) :
    (HookedCreateWindowExA RealCreateWindowExA metrics st args).realCalls =
        [{ dwExStyle := args.dwExStyle,
           lpClassName := args.lpClassName,
           lpWindowName := args.lpWindowName,
           dwStyle := 0x91000000,
           X := 0,
           Y := 0,
           nWidth := metrics.SM_CXSCREEN,
           nHeight := metrics.SM_CYSCREEN,
           hWndParent := args.hWndParent,
           hMenu := args.hMenu,
           hInstance := args.hInstance,
           lpParam := args.lpParam }]
      ∧ WS_VISIBLE ||| WS_POPUP ||| WS_MAXIMIZE = 0x91000000 := by
  have ht : IsSC4AppWindow args.lpClassName args.lpWindowName = true := by
    rw [IsSC4AppWindow_iff]
    rcases hpair with ⟨hc, hw⟩ | ⟨hc, hw⟩ | ⟨hc, hw⟩ <;> rw [hc, hw] <;> simp
  have hstyle : WS_VISIBLE ||| WS_POPUP ||| WS_MAXIMIZE = 0x91000000 := by decide
  refine ⟨?_, hstyle⟩
  unfold HookedCreateWindowExA
  rw [if_pos ht, hmode, hstyle]
  rfl

/-- C5 (witness): the DirectX pair with an overlapped-window style request. -/
theorem create_window_borderless_rewrite_witness :
    (HookedCreateWindowExA (fun _ => 7) ⟨1920, 1080⟩ ⟨SC4WindowMode.BorderlessFullScreen, 0⟩
        ⟨0, some "GDriverClass--DirectX", some "GDriverWindow--DirectX", 0x00CF0000,
          100, 50, 1024, 768, 0, 0, 0, 0⟩).realCalls =
        [{ dwExStyle := 0,
           lpClassName := some "GDriverClass--DirectX",
           lpWindowName := some "GDriverWindow--DirectX",
           dwStyle := 0x91000000,
           X := 0,
           Y := 0,
           nWidth := 1920,
           nHeight := 1080,
           hWndParent := 0,
           hMenu := 0,
           hInstance := 0,
           lpParam := 0 }]
      ∧ WS_VISIBLE ||| WS_POPUP ||| WS_MAXIMIZE = 0x91000000 :=
  create_window_borderless_rewrite (fun _ => 7) ⟨1920, 1080⟩
    ⟨SC4WindowMode.BorderlessFullScreen, 0⟩
    ⟨0, some "GDriverClass--DirectX", some "GDriverWindow--DirectX", 0x00CF0000,
      100, 50, 1024, 768, 0, 0, 0, 0⟩ rfl (Or.inl ⟨rfl, rfl⟩)

/-! ## Theorems: configuration resolver -/

/-- Strings equal up to case have the same length. -/
theorem EqualsIgnoreCase_length (lhs rhs : String) (h : EqualsIgnoreCase lhs rhs = true) :
    lhs.length = rhs.length := by
  unfold EqualsIgnoreCase at h
  simp only [Bool.and_eq_true, beq_iff_eq] at h
  exact h.1

/-- A string is at least as long as a prefix of it. -/
theorem StartsWithIgnoreCase_length (lhs rhs : String)
    (h : StartsWithIgnoreCase lhs rhs = true) : rhs.length ≤ lhs.length := by
  unfold StartsWithIgnoreCase at h
  simp only [Bool.and_eq_true, decide_eq_true_eq] at h
  exact h.1

/-- A range starting with "Soft" up to case equals none of the other driver tokens
up to case. -/
theorem soft_excludes (l : List Char) (h : istarts_with l "Soft".data = true) :
    iequals l "DirectX".data = false ∧ iequals l "OpenGL".data = false
      ∧ iequals l "SCGL".data = false := by
  rcases l with _ | ⟨a, _ | ⟨b, t⟩⟩
  · simp [istarts_with] at h
  · simp [istarts_with] at h
  · simp only [istarts_with, Bool.and_eq_true, beq_iff_eq] at h
    obtain ⟨ha, hb, -⟩ := h
    simp [iequals, ha, hb]

/-- The conversion to `uint32_t` keeps every value `GetSystemMetrics` reports for a
display, that is every non-negative `int`. -/
theorem static_cast_uint32_t_of_nonneg (i : Int) (h0 : 0 ≤ i) (h1 : i < 4294967296) :
    (static_cast_uint32_t i : Int) = i := by
  unfold static_cast_uint32_t
  rw [Int.emod_eq_of_lt h0 h1]
  exact Int.toNat_of_nonneg h0

/-- The driver token resolution on a present token, branch by branch. -/
theorem DriverDescriptionFromProperty_some (tree : ptree) (path drv : String)
    (h : tree.get_string path = some drv) :
    ∃ dd lg, DriverDescriptionFromProperty tree path = some (dd, lg)
      ∧ (EqualsIgnoreCase drv "DirectX" = true →
          dd = SC4GDriverDescription.DirectX ∧ lg = [])
      ∧ (EqualsIgnoreCase drv "OpenGL" = true ∨ EqualsIgnoreCase drv "SCGL" = true →
          dd = SC4GDriverDescription.OpenGL ∧ lg = [])
      ∧ (StartsWithIgnoreCase drv "Soft" = true →
          dd = SC4GDriverDescription.Software ∧ lg = []) := by
  unfold DriverDescriptionFromProperty
  rw [h]
  by_cases hd : EqualsIgnoreCase drv "DirectX" = true
  · refine ⟨_, _, by simp only [hd, if_true], fun _ => ⟨rfl, rfl⟩, ?_, ?_⟩
    · intro ho
      have hl := EqualsIgnoreCase_length _ _ hd
      rcases ho with ho | ho <;>
        · have hl2 := EqualsIgnoreCase_length _ _ ho
          rw [hl] at hl2
          exact absurd hl2 (by decide)
    · intro hs
      have hx := (soft_excludes drv.data
        (by
          unfold StartsWithIgnoreCase at hs
          simp only [Bool.and_eq_true] at hs
          exact hs.2)).1
      unfold EqualsIgnoreCase at hd
      simp only [Bool.and_eq_true] at hd
      rw [hx] at hd
      exact absurd hd.2 (by decide)
  · by_cases ho : (EqualsIgnoreCase drv "OpenGL" || EqualsIgnoreCase drv "SCGL") = true
    · refine ⟨_, _, by simp only [hd, ho, if_true]; rfl, fun h1 => absurd h1 hd,
        fun _ => ⟨rfl, rfl⟩, ?_⟩
      intro hs
      have hx := (soft_excludes drv.data
        (by
          unfold StartsWithIgnoreCase at hs
          simp only [Bool.and_eq_true] at hs
          exact hs.2)).2
      unfold EqualsIgnoreCase at ho
      simp only [Bool.or_eq_true, Bool.and_eq_true] at ho
      rw [hx.1, hx.2] at ho
      rcases ho with ho | ho <;> exact absurd ho.2 (by decide)
    · by_cases hs : StartsWithIgnoreCase drv "Soft" = true
      · refine ⟨_, _, by simp only [hd, ho, hs, if_true]; rfl, fun h1 => absurd h1 hd, ?_,
          fun _ => ⟨rfl, rfl⟩⟩
        intro h1
        exact absurd (by simpa using h1) ho
      · refine ⟨_, _, by simp only [hd, ho, hs]; rfl, fun h1 => absurd h1 hd, ?_,
          fun h1 => absurd h1 hs⟩
        intro h1
        exact absurd (by simpa using h1) ho

/-- The window mode resolution on a present token: "Windowed" up to case gives
`Windowed`; "FullScreen" up to case or a "Borderless" prefix up to case gives one
of the two full screen modes; nothing is logged in these cases. -/
theorem WindowModeFromProperty_some (tree : ptree) (path tok : String)
    (h : tree.get_string path = some tok) :
    ∃ m lg, WindowModeFromProperty tree path = some (m, lg)
      ∧ (EqualsIgnoreCase tok "Windowed" = true → m = SC4WindowMode.Windowed ∧ lg = [])
      ∧ (EqualsIgnoreCase tok "FullScreen" = true ∨ StartsWithIgnoreCase tok "Borderless" = true →
          (m = SC4WindowMode.FullScreen ∨ m = SC4WindowMode.BorderlessFullScreen) ∧ lg = []) := by
  unfold WindowModeFromProperty
  rw [h]
  by_cases hw : EqualsIgnoreCase tok "Windowed" = true
  · refine ⟨_, _, by simp only [hw, if_true], fun _ => ⟨rfl, rfl⟩, ?_⟩
    intro hf
    have hl := EqualsIgnoreCase_length _ _ hw
    rcases hf with hf | hf
    · have hl2 := EqualsIgnoreCase_length _ _ hf
      rw [hl] at hl2
      exact absurd hl2 (by decide)
    · have hl2 := StartsWithIgnoreCase_length _ _ hf
      rw [hl] at hl2
      exact absurd hl2 (by decide)
  · by_cases hf : EqualsIgnoreCase tok "FullScreen" = true
    · exact ⟨_, _, by simp only [hw, hf, if_true]; rfl, fun h1 => absurd h1 hw,
        fun _ => ⟨Or.inl rfl, rfl⟩⟩
    · by_cases hb : StartsWithIgnoreCase tok "Borderless" = true
      · exact ⟨_, _, by simp only [hw, hf, hb, if_true]; rfl, fun h1 => absurd h1 hw,
          fun _ => ⟨Or.inr rfl, rfl⟩⟩
      · refine ⟨_, _, by simp only [hw, hf, hb]; rfl, fun h1 => absurd h1 hw, ?_⟩
        intro h1
        rcases h1 with h1 | h1
        · exact absurd h1 hf
        · exact absurd h1 hb

/-- When the five leading keys are read without an exception, `Settings::Load`
continues with the colour depth test on the object holding the five values. -/
theorem Load_parsed (self : Settings) (tree : ptree) (metrics : SystemMetrics)
    (iv pf : Bool) (dd : SC4GDriverDescription) (l1 : List LogLine) (mode : SC4WindowMode)
    (l2 : List LogLine) (depth : Nat)
    (h1 : tree.get_bool "GraphicsOptions.EnableIntroVideo" = some iv)
    (h2 : tree.get_bool "GraphicsOptions.PauseGameOnFocusLoss" = some pf)
    (h3 : DriverDescriptionFromProperty tree "GraphicsOptions.Driver" = some (dd, l1))
    (h4 : WindowModeFromProperty tree "GraphicsOptions.WindowMode" = some (mode, l2))
    (h5 : tree.get_uint32 "GraphicsOptions.ColorDepth" = some depth) :
    Settings.Load self (ConfigFile.parsed tree) metrics =
      Settings.Load.dimensions
        { enableIntroVideo := iv,
          pauseGameOnFocusLoss := pf,
          driverDescription := dd,
          windowWidth := self.windowWidth,
          windowHeight := self.windowHeight,
          colorDepth := depth,
          windowMode := mode } tree metrics (l1 ++ l2) := by
  simp only [Settings.Load, h1, h2, h3, h4, h5]

/-- A load that returns normally has read the five leading keys. -/
theorem Load_returns (self : Settings) (tree : ptree) (metrics : SystemMetrics)
    (h : (Settings.Load self (ConfigFile.parsed tree) metrics).thrown = none) :
    ∃ iv pf dd l1 mode l2 depth,
      tree.get_bool "GraphicsOptions.EnableIntroVideo" = some iv
        ∧ tree.get_bool "GraphicsOptions.PauseGameOnFocusLoss" = some pf
        ∧ DriverDescriptionFromProperty tree "GraphicsOptions.Driver" = some (dd, l1)
        ∧ WindowModeFromProperty tree "GraphicsOptions.WindowMode" = some (mode, l2)
        ∧ tree.get_uint32 "GraphicsOptions.ColorDepth" = some depth := by
  cases h1 : tree.get_bool "GraphicsOptions.EnableIntroVideo" with
  | none => simp [Settings.Load, h1] at h
  | some iv =>
    cases h2 : tree.get_bool "GraphicsOptions.PauseGameOnFocusLoss" with
    | none => simp [Settings.Load, h1, h2] at h
    | some pf =>
      cases h3 : DriverDescriptionFromProperty tree "GraphicsOptions.Driver" with
      | none => simp [Settings.Load, h1, h2, h3] at h
      | some p3 =>
        obtain ⟨dd, l1⟩ := p3
        cases h4 : WindowModeFromProperty tree "GraphicsOptions.WindowMode" with
        | none => simp [Settings.Load, h1, h2, h3, h4] at h
        | some p4 =>
          obtain ⟨mode, l2⟩ := p4
          cases h5 : tree.get_uint32 "GraphicsOptions.ColorDepth" with
          | none => simp [Settings.Load, h1, h2, h3, h4, h5] at h
          | some depth => exact ⟨iv, pf, dd, l1, mode, l2, depth, rfl, rfl, rfl, rfl, rfl⟩

/-- C6 (counterexample): on a 1920x1080 display the file `WindowMode=Windowed`,
`WindowWidth=5000`, `WindowHeight=500` loads successfully and its width exceeds the
display, yet the result is `Windowed` at 800x600, not `BorderlessFullScreen` at the
display resolution. -/
theorem windowed_exceeding_below_minimum_is_clamped :
    (Settings.Load Settings.ctor
        (ConfigFile.parsed (ptree.ofEntries
          [("GraphicsOptions.EnableIntroVideo", true),
            ("GraphicsOptions.PauseGameOnFocusLoss", false)]
          [("GraphicsOptions.ColorDepth", 32), ("GraphicsOptions.WindowWidth", 5000),
            ("GraphicsOptions.WindowHeight", 500)]
          [("GraphicsOptions.Driver", "DirectX"), ("GraphicsOptions.WindowMode", "Windowed")]))
        ⟨1920, 1080⟩)
      = { thrown := none,
          settings :=
            { enableIntroVideo := true,
              pauseGameOnFocusLoss := false,
              driverDescription := SC4GDriverDescription.DirectX,
              windowWidth := 800,
              windowHeight := 600,
              colorDepth := 32,
              windowMode := SC4WindowMode.Windowed },
          log :=
            [{ level := LogLevel.Error,
               format := "The window dimensions must be at least 800x600, defaulting to 800x600.",
               args := [LogArg.uint 1920, LogArg.uint 1080] }] }
      ∧ static_cast_uint32_t 1920 < 5000 := by
  decide

/-- C6 (amended): for every configuration file that loads successfully with
`WindowMode=Windowed` (up to case), `WindowWidth >= 800` and `WindowHeight >= 600`,
and whose width or height exceeds the primary display resolution, `Settings::Load`
yields `BorderlessFullScreen` with width and height equal to the primary display
resolution (the `GetSystemMetrics` values converted to `uint32_t`). -/
theorem load_windowed_exceeding_display (self : Settings) (tree : ptree)
    (metrics : SystemMetrics) (tok : String) (w h : Nat)
    (hload : (Settings.Load self (ConfigFile.parsed tree) metrics).thrown = none)
    (hmode : tree.get_string "GraphicsOptions.WindowMode" = some tok)
    (hwin : EqualsIgnoreCase tok "Windowed" = true)
    (hw : tree.get_uint32 "GraphicsOptions.WindowWidth" = some w)
    (hh : tree.get_uint32 "GraphicsOptions.WindowHeight" = some h)
    (hmin : 800 ≤ w ∧ 600 ≤ h)
    (hexceeds : static_cast_uint32_t metrics.SM_CXSCREEN < w
      ∨ static_cast_uint32_t metrics.SM_CYSCREEN < h) :
    (Settings.Load self (ConfigFile.parsed tree) metrics).settings.windowMode
        = SC4WindowMode.BorderlessFullScreen
      ∧ (Settings.Load self (ConfigFile.parsed tree) metrics).settings.windowWidth
        = static_cast_uint32_t metrics.SM_CXSCREEN
      ∧ (Settings.Load self (ConfigFile.parsed tree) metrics).settings.windowHeight
        = static_cast_uint32_t metrics.SM_CYSCREEN := by
  obtain ⟨iv, pf, dd, l1, mode, l2, depth, h1, h2, h3, h4, h5⟩ :=
    Load_returns self tree metrics hload
  obtain ⟨m, lg, hm, hmw, -⟩ := WindowModeFromProperty_some tree _ tok hmode
  rw [h4] at hm
  obtain ⟨rfl, rfl⟩ : mode = m ∧ l2 = lg := by simpa using hm
  obtain ⟨rfl, -⟩ := hmw hwin
  rw [Load_parsed self tree metrics iv pf dd l1 _ l2 depth h1 h2 h3 h4 h5]
  have hlow : ¬ (w < 800 ∨ h < 600) := by omega
  have hhigh : static_cast_uint32_t metrics.SM_CXSCREEN < w
      ∨ static_cast_uint32_t metrics.SM_CYSCREEN < h := hexceeds
  by_cases hd : depth = 16 ∨ depth = 32 <;>
    simp [Settings.Load.dimensions, Settings.Load.windowed, hw, hh, hlow, hhigh, hd]

/-- C6 (witness): `WindowWidth=5000`, `WindowHeight=900` on a 1920x1080 display. -/
theorem load_windowed_exceeding_display_witness :
    (Settings.Load Settings.ctor
        (ConfigFile.parsed (ptree.ofEntries
          [("GraphicsOptions.EnableIntroVideo", true),
            ("GraphicsOptions.PauseGameOnFocusLoss", false)]
          [("GraphicsOptions.ColorDepth", 32), ("GraphicsOptions.WindowWidth", 5000),
            ("GraphicsOptions.WindowHeight", 900)]
          [("GraphicsOptions.Driver", "DirectX"), ("GraphicsOptions.WindowMode", "windowed")]))
        ⟨1920, 1080⟩).settings.windowMode = SC4WindowMode.BorderlessFullScreen
      ∧ (Settings.Load Settings.ctor
        (ConfigFile.parsed (ptree.ofEntries
          [("GraphicsOptions.EnableIntroVideo", true),
            ("GraphicsOptions.PauseGameOnFocusLoss", false)]
          [("GraphicsOptions.ColorDepth", 32), ("GraphicsOptions.WindowWidth", 5000),
            ("GraphicsOptions.WindowHeight", 900)]
          [("GraphicsOptions.Driver", "DirectX"), ("GraphicsOptions.WindowMode", "windowed")]))
        ⟨1920, 1080⟩).settings.windowWidth = static_cast_uint32_t 1920
      ∧ (Settings.Load Settings.ctor
        (ConfigFile.parsed (ptree.ofEntries
          [("GraphicsOptions.EnableIntroVideo", true),
            ("GraphicsOptions.PauseGameOnFocusLoss", false)]
          [("GraphicsOptions.ColorDepth", 32), ("GraphicsOptions.WindowWidth", 5000),
            ("GraphicsOptions.WindowHeight", 900)]
          [("GraphicsOptions.Driver", "DirectX"), ("GraphicsOptions.WindowMode", "windowed")]))
        ⟨1920, 1080⟩).settings.windowHeight = static_cast_uint32_t 1080 :=
  load_windowed_exceeding_display Settings.ctor
    (ptree.ofEntries
      [("GraphicsOptions.EnableIntroVideo", true),
        ("GraphicsOptions.PauseGameOnFocusLoss", false)]
      [("GraphicsOptions.ColorDepth", 32), ("GraphicsOptions.WindowWidth", 5000),
        ("GraphicsOptions.WindowHeight", 900)]
      [("GraphicsOptions.Driver", "DirectX"), ("GraphicsOptions.WindowMode", "windowed")])
    ⟨1920, 1080⟩ "windowed" 5000 900 (by decide) (by decide) (by decide) (by decide)
    (by decide) (by decide) (by decide)

/-- C7: for every configuration with `WindowMode=Windowed` (up to case), a recognised
driver token, a colour depth of 16 or 32, `800 <= WindowWidth <= primary display width`
and `600 <= WindowHeight <= primary display height`, `Settings::Load` returns normally,
logs nothing, and the resolved width, height, colour depth, intro video flag and
pause flag are the values of the file, the mode is `Windowed`, and the driver is
the descriptor the token names (DirectX for "DirectX", OpenGL for "OpenGL" and
"SCGL", Software for a "Soft" prefix, all up to case). -/
theorem load_windowed_valid_unchanged (self : Settings) (tree : ptree)
    (metrics : SystemMetrics) (iv pf : Bool) (drv tok : String) (depth w h : Nat)
    (h1 : tree.get_bool "GraphicsOptions.EnableIntroVideo" = some iv)
    (h2 : tree.get_bool "GraphicsOptions.PauseGameOnFocusLoss" = some pf)
    (h3 : tree.get_string "GraphicsOptions.Driver" = some drv)
    (h4 : tree.get_string "GraphicsOptions.WindowMode" = some tok)
    (h5 : tree.get_uint32 "GraphicsOptions.ColorDepth" = some depth)
    (hw : tree.get_uint32 "GraphicsOptions.WindowWidth" = some w)
    (hh : tree.get_uint32 "GraphicsOptions.WindowHeight" = some h)
    (hwin : EqualsIgnoreCase tok "Windowed" = true)
    (hdrv : EqualsIgnoreCase drv "DirectX" = true ∨ EqualsIgnoreCase drv "OpenGL" = true
      ∨ EqualsIgnoreCase drv "SCGL" = true ∨ StartsWithIgnoreCase drv "Soft" = true)
    (hdepth : depth = 16 ∨ depth = 32)
    (hwidth : 800 ≤ w ∧ w ≤ static_cast_uint32_t metrics.SM_CXSCREEN)
    (hheight : 600 ≤ h ∧ h ≤ static_cast_uint32_t metrics.SM_CYSCREEN) :
    (Settings.Load self (ConfigFile.parsed tree) metrics).thrown = none
      ∧ (Settings.Load self (ConfigFile.parsed tree) metrics).log = []
      ∧ (Settings.Load self (ConfigFile.parsed tree) metrics).settings.windowWidth = w
      ∧ (Settings.Load self (ConfigFile.parsed tree) metrics).settings.windowHeight = h
      ∧ (Settings.Load self (ConfigFile.parsed tree) metrics).settings.colorDepth = depth
      ∧ (Settings.Load self (ConfigFile.parsed tree) metrics).settings.windowMode
          = SC4WindowMode.Windowed
      ∧ (Settings.Load self (ConfigFile.parsed tree) metrics).settings.enableIntroVideo = iv
      ∧ (Settings.Load self (ConfigFile.parsed tree) metrics).settings.pauseGameOnFocusLoss = pf
      ∧ (EqualsIgnoreCase drv "DirectX" = true →
          (Settings.Load self (ConfigFile.parsed tree) metrics).settings.driverDescription
            = SC4GDriverDescription.DirectX)
      ∧ (EqualsIgnoreCase drv "OpenGL" = true ∨ EqualsIgnoreCase drv "SCGL" = true →
          (Settings.Load self (ConfigFile.parsed tree) metrics).settings.driverDescription
            = SC4GDriverDescription.OpenGL)
      ∧ (StartsWithIgnoreCase drv "Soft" = true →
          (Settings.Load self (ConfigFile.parsed tree) metrics).settings.driverDescription
            = SC4GDriverDescription.Software) := by
  obtain ⟨dd, l1, hdd, hdx, hgl, hsw⟩ := DriverDescriptionFromProperty_some tree _ drv h3
  obtain ⟨m, l2, hm, hmw, -⟩ := WindowModeFromProperty_some tree _ tok h4
  obtain ⟨rfl, rfl⟩ := hmw hwin
  have hl1 : l1 = [] := by
    rcases hdrv with hd | hd | hd | hd
    · exact (hdx hd).2
    · exact (hgl (Or.inl hd)).2
    · exact (hgl (Or.inr hd)).2
    · exact (hsw hd).2
  subst hl1
  rw [Load_parsed self tree metrics iv pf dd [] _ [] depth h1 h2 hdd hm h5]
  have hlow : ¬ (w < 800 ∨ h < 600) := by omega
  have hhigh : ¬ (static_cast_uint32_t metrics.SM_CXSCREEN < w
      ∨ static_cast_uint32_t metrics.SM_CYSCREEN < h) := by omega
  have hres : Settings.Load.dimensions
        { enableIntroVideo := iv,
          pauseGameOnFocusLoss := pf,
          driverDescription := dd,
          windowWidth := self.windowWidth,
          windowHeight := self.windowHeight,
          colorDepth := depth,
          windowMode := SC4WindowMode.Windowed } tree metrics ([] ++ [])
      = { thrown := none,
          settings :=
            { enableIntroVideo := iv,
              pauseGameOnFocusLoss := pf,
              driverDescription := dd,
              windowWidth := w,
              windowHeight := h,
              colorDepth := depth,
              windowMode := SC4WindowMode.Windowed },
          log := [] } := by
    rcases hdepth with hd | hd <;>
      simp [Settings.Load.dimensions, Settings.Load.windowed, hw, hh, hlow, hhigh, hd]
  rw [hres]
  exact ⟨rfl, rfl, rfl, rfl, rfl, rfl, rfl, rfl, fun hd => (hdx hd).1, fun hd => (hgl hd).1,
    fun hd => (hsw hd).1⟩

/-- C7 (witness): `Driver=scgl`, `WindowMode=Windowed`, 16 bit, 1280x720 on a
1920x1080 display. -/
theorem load_windowed_valid_unchanged_witness :
    (Settings.Load Settings.ctor
        (ConfigFile.parsed (ptree.ofEntries
          [("GraphicsOptions.EnableIntroVideo", false),
            ("GraphicsOptions.PauseGameOnFocusLoss", true)]
          [("GraphicsOptions.ColorDepth", 16), ("GraphicsOptions.WindowWidth", 1280),
            ("GraphicsOptions.WindowHeight", 720)]
          [("GraphicsOptions.Driver", "scgl"), ("GraphicsOptions.WindowMode", "Windowed")]))
        ⟨1920, 1080⟩).settings
      = { enableIntroVideo := false,
          pauseGameOnFocusLoss := true,
          driverDescription := SC4GDriverDescription.OpenGL,
          windowWidth := 1280,
          windowHeight := 720,
          colorDepth := 16,
          windowMode := SC4WindowMode.Windowed } := by
  have hall := load_windowed_valid_unchanged Settings.ctor
    (ptree.ofEntries
      [("GraphicsOptions.EnableIntroVideo", false),
        ("GraphicsOptions.PauseGameOnFocusLoss", true)]
      [("GraphicsOptions.ColorDepth", 16), ("GraphicsOptions.WindowWidth", 1280),
        ("GraphicsOptions.WindowHeight", 720)]
      [("GraphicsOptions.Driver", "scgl"), ("GraphicsOptions.WindowMode", "Windowed")])
    ⟨1920, 1080⟩ false true "scgl" "Windowed" 16 1280 720 (by decide) (by decide)
    (by decide) (by decide) (by decide) (by decide) (by decide) (by decide)
    (Or.inr (Or.inr (Or.inl (by decide)))) (Or.inl rfl) (by decide) (by decide)
  obtain ⟨-, -, hw, hh, hd, hm, hi, hp, -, hgl, -⟩ := hall
  have hdd := hgl (Or.inr (by decide))
  generalize Settings.Load Settings.ctor _ _ = r at hw hh hd hm hi hp hdd ⊢
  obtain ⟨t, ⟨a, b, c, d, e, f, g⟩, l⟩ := r
  simp only at hw hh hd hm hi hp hdd
  subst hw hh hd hm hi hp hdd
  rfl

/-- C8: for every configuration whose five leading keys are present and whose
`WindowMode` token is "FullScreen" (up to case) or starts with "Borderless" (up to
case), `Settings::Load` returns normally, whatever the tree holds (or lacks) under
`WindowWidth` and `WindowHeight`; the resolved mode is one of the two full screen
modes and width and height are the primary display resolution (the
`GetSystemMetrics` values converted to `uint32_t`). -/
theorem load_full_screen_dimensions (self : Settings) (tree : ptree)
    (metrics : SystemMetrics) (iv pf : Bool) (drv tok : String) (depth : Nat)
    (h1 : tree.get_bool "GraphicsOptions.EnableIntroVideo" = some iv)
    (h2 : tree.get_bool "GraphicsOptions.PauseGameOnFocusLoss" = some pf)
    (h3 : tree.get_string "GraphicsOptions.Driver" = some drv)
    (h4 : tree.get_string "GraphicsOptions.WindowMode" = some tok)
    (h5 : tree.get_uint32 "GraphicsOptions.ColorDepth" = some depth)
    (hfull : EqualsIgnoreCase tok "FullScreen" = true
      ∨ StartsWithIgnoreCase tok "Borderless" = true) :
    (Settings.Load self (ConfigFile.parsed tree) metrics).thrown = none
      ∧ ((Settings.Load self (ConfigFile.parsed tree) metrics).settings.windowMode
          = SC4WindowMode.FullScreen
        ∨ (Settings.Load self (ConfigFile.parsed tree) metrics).settings.windowMode
          = SC4WindowMode.BorderlessFullScreen)
      ∧ (Settings.Load self (ConfigFile.parsed tree) metrics).settings.windowWidth
        = static_cast_uint32_t metrics.SM_CXSCREEN
      ∧ (Settings.Load self (ConfigFile.parsed tree) metrics).settings.windowHeight
        = static_cast_uint32_t metrics.SM_CYSCREEN := by
  obtain ⟨dd, l1, hdd, -⟩ := DriverDescriptionFromProperty_some tree _ drv h3
  obtain ⟨m, l2, hm, -, hmf⟩ := WindowModeFromProperty_some tree _ tok h4
  obtain ⟨hmode, -⟩ := hmf hfull
  rw [Load_parsed self tree metrics iv pf dd l1 m l2 depth h1 h2 hdd hm h5]
  by_cases hd : depth = 16 ∨ depth = 32 <;> rcases hmode with rfl | rfl <;>
    simp [Settings.Load.dimensions, hd]

/-- C8 (witness): `WindowMode=borderless window` with a `WindowWidth` of 640 and no
`WindowHeight` key on a 2560x1440 display. -/
theorem load_full_screen_dimensions_witness :
    (Settings.Load Settings.ctor
        (ConfigFile.parsed (ptree.ofEntries
          [("GraphicsOptions.EnableIntroVideo", true),
            ("GraphicsOptions.PauseGameOnFocusLoss", false)]
          [("GraphicsOptions.ColorDepth", 32), ("GraphicsOptions.WindowWidth", 640)]
          [("GraphicsOptions.Driver", "DirectX"),
            ("GraphicsOptions.WindowMode", "borderless window")]))
        ⟨2560, 1440⟩).thrown = none
      ∧ ((Settings.Load Settings.ctor
        (ConfigFile.parsed (ptree.ofEntries
          [("GraphicsOptions.EnableIntroVideo", true),
            ("GraphicsOptions.PauseGameOnFocusLoss", false)]
          [("GraphicsOptions.ColorDepth", 32), ("GraphicsOptions.WindowWidth", 640)]
          [("GraphicsOptions.Driver", "DirectX"),
            ("GraphicsOptions.WindowMode", "borderless window")]))
        ⟨2560, 1440⟩).settings.windowMode = SC4WindowMode.FullScreen
        ∨ (Settings.Load Settings.ctor
        (ConfigFile.parsed (ptree.ofEntries
          [("GraphicsOptions.EnableIntroVideo", true),
            ("GraphicsOptions.PauseGameOnFocusLoss", false)]
          [("GraphicsOptions.ColorDepth", 32), ("GraphicsOptions.WindowWidth", 640)]
          [("GraphicsOptions.Driver", "DirectX"),
            ("GraphicsOptions.WindowMode", "borderless window")]))
        ⟨2560, 1440⟩).settings.windowMode = SC4WindowMode.BorderlessFullScreen)
      ∧ (Settings.Load Settings.ctor
        (ConfigFile.parsed (ptree.ofEntries
          [("GraphicsOptions.EnableIntroVideo", true),
            ("GraphicsOptions.PauseGameOnFocusLoss", false)]
          [("GraphicsOptions.ColorDepth", 32), ("GraphicsOptions.WindowWidth", 640)]
          [("GraphicsOptions.Driver", "DirectX"),
            ("GraphicsOptions.WindowMode", "borderless window")]))
        ⟨2560, 1440⟩).settings.windowWidth = static_cast_uint32_t 2560
      ∧ (Settings.Load Settings.ctor
        (ConfigFile.parsed (ptree.ofEntries
          [("GraphicsOptions.EnableIntroVideo", true),
            ("GraphicsOptions.PauseGameOnFocusLoss", false)]
          [("GraphicsOptions.ColorDepth", 32), ("GraphicsOptions.WindowWidth", 640)]
          [("GraphicsOptions.Driver", "DirectX"),
            ("GraphicsOptions.WindowMode", "borderless window")]))
        ⟨2560, 1440⟩).settings.windowHeight = static_cast_uint32_t 1440 :=
  load_full_screen_dimensions Settings.ctor
    (ptree.ofEntries
      [("GraphicsOptions.EnableIntroVideo", true),
        ("GraphicsOptions.PauseGameOnFocusLoss", false)]
      [("GraphicsOptions.ColorDepth", 32), ("GraphicsOptions.WindowWidth", 640)]
      [("GraphicsOptions.Driver", "DirectX"),
        ("GraphicsOptions.WindowMode", "borderless window")])
    ⟨2560, 1440⟩ true false "DirectX" "borderless window" 32 (by decide) (by decide)
    (by decide) (by decide) (by decide) (Or.inr (by decide))

/-- C9 (evaluation at the failing input): a file with `EnableIntroVideo=false`,
`Driver=OpenGL`, `WindowMode=FullScreen`, `ColorDepth=32` and no
`PauseGameOnFocusLoss` key makes `Settings::Load` throw at the second key, after
the first assignment: the `settings` member the director keeps is not the default
constructed one, its intro video flag is the one of the file. -/
theorem failed_load_keeps_first_assignment :
    (Settings.Load Settings.ctor
        (ConfigFile.parsed (ptree.ofEntries
          [("GraphicsOptions.EnableIntroVideo", false)]
          [("GraphicsOptions.ColorDepth", 32)]
          [("GraphicsOptions.Driver", "OpenGL"), ("GraphicsOptions.WindowMode", "FullScreen")]))
        ⟨1920, 1080⟩).thrown
      = some (LoadException.ptree_error "GraphicsOptions.PauseGameOnFocusLoss")
      ∧ (GraphicsOptionsDllDirector.ctor
        (ConfigFile.parsed (ptree.ofEntries
          [("GraphicsOptions.EnableIntroVideo", false)]
          [("GraphicsOptions.ColorDepth", 32)]
          [("GraphicsOptions.Driver", "OpenGL"), ("GraphicsOptions.WindowMode", "FullScreen")]))
        ⟨1920, 1080⟩).1
        = { enableIntroVideo := false,
            pauseGameOnFocusLoss := false,
            driverDescription := SC4GDriverDescription.DirectX,
            windowWidth := 1024,
            windowHeight := 768,
            colorDepth := 32,
            windowMode := SC4WindowMode.Windowed }
      ∧ (GraphicsOptionsDllDirector.ctor
        (ConfigFile.parsed (ptree.ofEntries
          [("GraphicsOptions.EnableIntroVideo", false)]
          [("GraphicsOptions.ColorDepth", 32)]
          [("GraphicsOptions.Driver", "OpenGL"), ("GraphicsOptions.WindowMode", "FullScreen")]))
        ⟨1920, 1080⟩).1 ≠ Settings.ctor := by
  decide

/-- C10: the registry holds one descriptor per backend.  The tokens are 0xBADB6906
(DirectX), 0xC4554841 (OpenGL) and 0x7ACA35C6 (Software), all non-zero;
`IsHardwareDriver` is true for DirectX and OpenGL and false for Software; for every
backend exactly one of the three descriptors carries the token `SetGraphicsOptions`
requests for it, and that request is the single call `SetDefaultDriverClassID`
receives when the service is available. -/
theorem driver_registry_total :
    (SC4GDriverDescription.DirectX.GetGZCLSID = 0xBADB6906
        ∧ SC4GDriverDescription.OpenGL.GetGZCLSID = 0xC4554841
        ∧ SC4GDriverDescription.Software.GetGZCLSID = 0x7ACA35C6)
      ∧ (SC4GDriverDescription.DirectX.GetGZCLSID ≠ 0
        ∧ SC4GDriverDescription.OpenGL.GetGZCLSID ≠ 0
        ∧ SC4GDriverDescription.Software.GetGZCLSID ≠ 0)
      ∧ (SC4GDriverDescription.DirectX.IsHardwareDriver = true
        ∧ SC4GDriverDescription.OpenGL.IsHardwareDriver = true
        ∧ SC4GDriverDescription.Software.IsHardwareDriver = false)
      ∧ (SetGraphicsOptions.requestedDriverID SC4GraphicsDriverType.DirectX
          = SC4GDriverDescription.DirectX.GetGZCLSID
        ∧ SetGraphicsOptions.requestedDriverID SC4GraphicsDriverType.OpenGL
          = SC4GDriverDescription.OpenGL.GetGZCLSID
        ∧ SetGraphicsOptions.requestedDriverID SC4GraphicsDriverType.Software
          = SC4GDriverDescription.Software.GetGZCLSID)
      ∧ (∀ t : SC4GraphicsDriverType,
          ∃! d : SC4GDriverDescription,
            d ∈ [SC4GDriverDescription.DirectX, SC4GDriverDescription.OpenGL,
                SC4GDriverDescription.Software]
              ∧ d.GetGZCLSID = SetGraphicsOptions.requestedDriverID t)
      ∧ (∀ (pGS : Bool) (w h d : Nat) (m : SC4WindowMode) (t : SC4GraphicsDriverType)
          (host : GraphicSystemCalls),
          (SetGraphicsOptions pGS true w h d m t host).SetDefaultDriverClassID
            = host.SetDefaultDriverClassID ++ [SetGraphicsOptions.requestedDriverID t]) := by
  refine ⟨by decide, by decide, by decide, by decide, ?_, ?_⟩
  · intro t
    cases t
    · refine ⟨SC4GDriverDescription.DirectX, ⟨by simp, by decide⟩, ?_⟩
      rintro d ⟨hmem, htok⟩
      simp only [List.mem_cons, List.mem_singleton, List.not_mem_nil, or_false] at hmem
      rcases hmem with rfl | rfl | rfl
      · rfl
      · exact absurd htok (by decide)
      · exact absurd htok (by decide)
    · refine ⟨SC4GDriverDescription.OpenGL, ⟨by simp, by decide⟩, ?_⟩
      rintro d ⟨hmem, htok⟩
      simp only [List.mem_cons, List.mem_singleton, List.not_mem_nil, or_false] at hmem
      rcases hmem with rfl | rfl | rfl
      · exact absurd htok (by decide)
      · rfl
      · exact absurd htok (by decide)
    · refine ⟨SC4GDriverDescription.Software, ⟨by simp, by decide⟩, ?_⟩
      rintro d ⟨hmem, htok⟩
      simp only [List.mem_cons, List.mem_singleton, List.not_mem_nil, or_false] at hmem
      rcases hmem with rfl | rfl | rfl
      · exact absurd htok (by decide)
      · exact absurd htok (by decide)
      · rfl
  · intro pGS w h d m t host
    cases pGS <;> simp [SetGraphicsOptions]

/-! ## Theorems: token resolution -/

/-- The loop `iequals` compares the upper case images of the two ranges. -/
theorem iequals_iff (l r : List Char) :
    iequals l r = true ↔ l.map Char.toUpper = r.map Char.toUpper := by
  induction l generalizing r with
  | nil => cases r <;> simp [iequals]
  | cons a as ih =>
    cases r with
    | nil => simp [iequals]
    | cons b bs => simp [iequals, ih]

/-- The loop `istarts_with` compares the upper case image of the test range with
that of the leading part of the input of the same length. -/
theorem istarts_with_iff (l r : List Char) :
    istarts_with l r = true ↔
      (l.take r.length).map Char.toUpper = r.map Char.toUpper := by
  induction l generalizing r with
  | nil => cases r <;> simp [istarts_with]
  | cons a as ih =>
    cases r with
    | nil => simp [istarts_with]
    | cons b bs => simp [istarts_with, ih]

/-- The helper `EqualsIgnoreCase` holds exactly when the upper case images agree. -/
theorem EqualsIgnoreCase_iff (lhs rhs : String) :
    EqualsIgnoreCase lhs rhs = true ↔
      lhs.data.map Char.toUpper = rhs.data.map Char.toUpper := by
  unfold EqualsIgnoreCase
  rw [Bool.and_eq_true, iequals_iff, beq_iff_eq]
  constructor
  · exact fun h => h.2
  · intro h
    refine ⟨?_, h⟩
    have hl := congrArg List.length h
    rw [List.length_map, List.length_map] at hl
    exact hl

/-- The helper `StartsWithIgnoreCase` holds exactly when the upper case image of the
leading part of `lhs` agrees with that of `rhs`. -/
theorem StartsWithIgnoreCase_iff (lhs rhs : String) :
    StartsWithIgnoreCase lhs rhs = true ↔
      (lhs.data.take rhs.length).map Char.toUpper = rhs.data.map Char.toUpper := by
  unfold StartsWithIgnoreCase
  rw [Bool.and_eq_true, istarts_with_iff, decide_eq_true_eq]
  constructor
  · exact fun h => h.2
  · intro h
    refine ⟨?_, h⟩
    have hl := congrArg List.length h
    rw [List.length_map, List.length_map, List.length_take] at hl
    show rhs.data.length ≤ lhs.data.length
    have hr : rhs.length = rhs.data.length := rfl
    omega

/-- The four driver tests of `DriverDescriptionFromProperty` in terms of the upper
case image of the token. -/
theorem driver_tests_iff (drv : String) :
    (EqualsIgnoreCase drv "DirectX" = true ↔ drv.data.map Char.toUpper = "DIRECTX".data)
      ∧ (EqualsIgnoreCase drv "OpenGL" = true ↔ drv.data.map Char.toUpper = "OPENGL".data)
      ∧ (EqualsIgnoreCase drv "SCGL" = true ↔ drv.data.map Char.toUpper = "SCGL".data)
      ∧ (StartsWithIgnoreCase drv "Soft" = true ↔
          (drv.data.take 4).map Char.toUpper = "SOFT".data) := by
  have e1 : "DirectX".data.map Char.toUpper = "DIRECTX".data := by decide
  have e2 : "OpenGL".data.map Char.toUpper = "OPENGL".data := by decide
  have e3 : "SCGL".data.map Char.toUpper = "SCGL".data := by decide
  have e4 : "Soft".data.map Char.toUpper = "SOFT".data := by decide
  have e5 : "Soft".length = 4 := by decide
  refine ⟨?_, ?_, ?_, ?_⟩
  · rw [EqualsIgnoreCase_iff, e1]
  · rw [EqualsIgnoreCase_iff, e2]
  · rw [EqualsIgnoreCase_iff, e3]
  · rw [StartsWithIgnoreCase_iff, e4, e5]

/-- The three window mode tests of `WindowModeFromProperty` in terms of the upper
case image of the token. -/
theorem window_mode_tests_iff (tok : String) :
    (EqualsIgnoreCase tok "Windowed" = true ↔ tok.data.map Char.toUpper = "WINDOWED".data)
      ∧ (EqualsIgnoreCase tok "FullScreen" = true ↔
          tok.data.map Char.toUpper = "FULLSCREEN".data)
      ∧ (StartsWithIgnoreCase tok "Borderless" = true ↔
          (tok.data.take 10).map Char.toUpper = "BORDERLESS".data) := by
  have e1 : "Windowed".data.map Char.toUpper = "WINDOWED".data := by decide
  have e2 : "FullScreen".data.map Char.toUpper = "FULLSCREEN".data := by decide
  have e3 : "Borderless".data.map Char.toUpper = "BORDERLESS".data := by decide
  have e4 : "Borderless".length = 10 := by decide
  refine ⟨?_, ?_, ?_⟩
  · rw [EqualsIgnoreCase_iff, e1]
  · rw [EqualsIgnoreCase_iff, e2]
  · rw [StartsWithIgnoreCase_iff, e3, e4]

/-- C11: driver token resolution.  For every `Driver` string present in the tree,
`DriverDescriptionFromProperty` returns the DirectX descriptor if the upper case
image of the string is "DIRECTX", the OpenGL descriptor if it is "OPENGL" or "SCGL",
the Software descriptor if the upper case image of its first four characters is
"SOFT", and the DirectX descriptor for every other string. -/
theorem driver_token_resolution (tree : ptree) (path drv : String)
    (h : tree.get_string path = some drv) :
    (drv.data.map Char.toUpper = "DIRECTX".data →
        (DriverDescriptionFromProperty tree path).map Prod.fst
          = some SC4GDriverDescription.DirectX)
      ∧ (drv.data.map Char.toUpper = "OPENGL".data
          ∨ drv.data.map Char.toUpper = "SCGL".data →
        (DriverDescriptionFromProperty tree path).map Prod.fst
          = some SC4GDriverDescription.OpenGL)
      ∧ ((drv.data.take 4).map Char.toUpper = "SOFT".data →
        (DriverDescriptionFromProperty tree path).map Prod.fst
          = some SC4GDriverDescription.Software)
      ∧ (¬ drv.data.map Char.toUpper = "DIRECTX".data
          ∧ ¬ drv.data.map Char.toUpper = "OPENGL".data
          ∧ ¬ drv.data.map Char.toUpper = "SCGL".data
          ∧ ¬ (drv.data.take 4).map Char.toUpper = "SOFT".data →
        (DriverDescriptionFromProperty tree path).map Prod.fst
          = some SC4GDriverDescription.DirectX) := by
  obtain ⟨tA, tB1, tB2, tC⟩ := driver_tests_iff drv
  obtain ⟨dd, lg, hdd, h1, h2, h3⟩ := DriverDescriptionFromProperty_some tree path drv h
  refine ⟨?_, ?_, ?_, ?_⟩
  · intro a
    rw [hdd, (h1 (tA.2 a)).1]
    rfl
  · intro b
    rw [hdd, (h2 (b.imp tB1.2 tB2.2)).1]
    rfl
  · intro c
    rw [hdd, (h3 (tC.2 c)).1]
    rfl
  · rintro ⟨nA, nB1, nB2, nC⟩
    have fA : EqualsIgnoreCase drv "DirectX" = false := by
      rw [← Bool.not_eq_true]
      exact fun t => nA (tA.1 t)
    have fB1 : EqualsIgnoreCase drv "OpenGL" = false := by
      rw [← Bool.not_eq_true]
      exact fun t => nB1 (tB1.1 t)
    have fB2 : EqualsIgnoreCase drv "SCGL" = false := by
      rw [← Bool.not_eq_true]
      exact fun t => nB2 (tB2.1 t)
    have fC : StartsWithIgnoreCase drv "Soft" = false := by
      rw [← Bool.not_eq_true]
      exact fun t => nC (tC.1 t)
    simp [DriverDescriptionFromProperty, h, fA, fB1, fB2, fC]

/-- C11 (witness): the token "scgl" resolves to the OpenGL descriptor. -/
theorem driver_token_resolution_witness :
    (DriverDescriptionFromProperty
        (ptree.ofEntries [] [] [("GraphicsOptions.Driver", "scgl")])
        "GraphicsOptions.Driver").map Prod.fst
      = some SC4GDriverDescription.OpenGL :=
  (driver_token_resolution (ptree.ofEntries [] [] [("GraphicsOptions.Driver", "scgl")])
    "GraphicsOptions.Driver" "scgl" (by decide)).2.1 (Or.inr (by decide))

/-- C12: window mode token resolution.  For every `WindowMode` string present in
the tree, `WindowModeFromProperty` returns `Windowed` if the upper case image of the
string is "WINDOWED", `FullScreen` if it is "FULLSCREEN", `BorderlessFullScreen` if the
upper case image of its first ten characters is "BORDERLESS" (whatever follows), and
`Windowed` for every other string; no two of the three tests hold for the same
string, so their order does not matter. -/
theorem window_mode_token_resolution (tree : ptree) (path tok : String)
    (h : tree.get_string path = some tok) :
    (tok.data.map Char.toUpper = "WINDOWED".data →
        (WindowModeFromProperty tree path).map Prod.fst = some SC4WindowMode.Windowed)
      ∧ (tok.data.map Char.toUpper = "FULLSCREEN".data →
        (WindowModeFromProperty tree path).map Prod.fst = some SC4WindowMode.FullScreen)
      ∧ ((tok.data.take 10).map Char.toUpper = "BORDERLESS".data →
        (WindowModeFromProperty tree path).map Prod.fst
          = some SC4WindowMode.BorderlessFullScreen)
      ∧ (¬ tok.data.map Char.toUpper = "WINDOWED".data
          ∧ ¬ tok.data.map Char.toUpper = "FULLSCREEN".data
          ∧ ¬ (tok.data.take 10).map Char.toUpper = "BORDERLESS".data →
        (WindowModeFromProperty tree path).map Prod.fst = some SC4WindowMode.Windowed)
      ∧ ¬ (tok.data.map Char.toUpper = "WINDOWED".data
          ∧ tok.data.map Char.toUpper = "FULLSCREEN".data)
      ∧ ¬ (tok.data.map Char.toUpper = "WINDOWED".data
          ∧ (tok.data.take 10).map Char.toUpper = "BORDERLESS".data)
      ∧ ¬ (tok.data.map Char.toUpper = "FULLSCREEN".data
          ∧ (tok.data.take 10).map Char.toUpper = "BORDERLESS".data) := by
  obtain ⟨tW, tF, tB⟩ := window_mode_tests_iff tok
  have xWF : ¬ (tok.data.map Char.toUpper = "WINDOWED".data
      ∧ tok.data.map Char.toUpper = "FULLSCREEN".data) := by
    rintro ⟨a, b⟩
    rw [a] at b
    exact absurd b (by decide)
  have xWB : ¬ (tok.data.map Char.toUpper = "WINDOWED".data
      ∧ (tok.data.take 10).map Char.toUpper = "BORDERLESS".data) := by
    rintro ⟨a, b⟩
    rw [List.map_take, a] at b
    exact absurd b (by decide)
  have xFB : ¬ (tok.data.map Char.toUpper = "FULLSCREEN".data
      ∧ (tok.data.take 10).map Char.toUpper = "BORDERLESS".data) := by
    rintro ⟨a, b⟩
    rw [List.map_take, a] at b
    exact absurd b (by decide)
  refine ⟨?_, ?_, ?_, ?_, xWF, xWB, xFB⟩
  · intro a
    simp [WindowModeFromProperty, h, tW.2 a]
  · intro b
    have fW : EqualsIgnoreCase tok "Windowed" = false := by
      rw [← Bool.not_eq_true]
      exact fun t => xWF ⟨tW.1 t, b⟩
    simp [WindowModeFromProperty, h, fW, tF.2 b]
  · intro c
    have fW : EqualsIgnoreCase tok "Windowed" = false := by
      rw [← Bool.not_eq_true]
      exact fun t => xWB ⟨tW.1 t, c⟩
    have fF : EqualsIgnoreCase tok "FullScreen" = false := by
      rw [← Bool.not_eq_true]
      exact fun t => xFB ⟨tF.1 t, c⟩
    simp [WindowModeFromProperty, h, fW, fF, tB.2 c]
  · rintro ⟨nW, nF, nB⟩
    have fW : EqualsIgnoreCase tok "Windowed" = false := by
      rw [← Bool.not_eq_true]
      exact fun t => nW (tW.1 t)
    have fF : EqualsIgnoreCase tok "FullScreen" = false := by
      rw [← Bool.not_eq_true]
      exact fun t => nF (tF.1 t)
    have fB : StartsWithIgnoreCase tok "Borderless" = false := by
      rw [← Bool.not_eq_true]
      exact fun t => nB (tB.1 t)
    simp [WindowModeFromProperty, h, fW, fF, fB]

/-- C12 (witness): the token "BORDERLESS window" resolves to `BorderlessFullScreen`. -/
theorem window_mode_token_resolution_witness :
    (WindowModeFromProperty
        (ptree.ofEntries [] [] [("GraphicsOptions.WindowMode", "BORDERLESS window")])
        "GraphicsOptions.WindowMode").map Prod.fst
      = some SC4WindowMode.BorderlessFullScreen :=
  (window_mode_token_resolution
    (ptree.ofEntries [] [] [("GraphicsOptions.WindowMode", "BORDERLESS window")])
    "GraphicsOptions.WindowMode" "BORDERLESS window" (by decide)).2.2.1 (by decide)

/-! ## Theorems: colour depth and resolved dimensions -/

/-- The colour depth left by the tail of `Settings::Load`, whether it returns or
throws: the value read when it is 16 or 32, and 32 otherwise. -/
theorem dimensions_colorDepth (s : Settings) (tree : ptree) (metrics : SystemMetrics)
    (log : List LogLine) :
    (Settings.Load.dimensions s tree metrics log).settings.colorDepth
      = if s.colorDepth = 16 ∨ s.colorDepth = 32 then s.colorDepth else 32 := by
  unfold Settings.Load.dimensions Settings.Load.windowed
  by_cases hd : s.colorDepth = 16 ∨ s.colorDepth = 32 <;>
    cases hm : s.windowMode <;>
    cases hw : tree.get_uint32 "GraphicsOptions.WindowWidth" <;>
    cases hh : tree.get_uint32 "GraphicsOptions.WindowHeight" <;>
    simp [hd, hm, hw, hh] <;> split_ifs <;> simp [hd]

/-- The dimensions left by the tail of `Settings::Load` when it returns normally. -/
theorem dimensions_invariant (s : Settings) (tree : ptree) (metrics : SystemMetrics)
    (log : List LogLine)
    (h : (Settings.Load.dimensions s tree metrics log).thrown = none) :
    ((Settings.Load.dimensions s tree metrics log).settings.windowMode
          = SC4WindowMode.Windowed →
        800 ≤ (Settings.Load.dimensions s tree metrics log).settings.windowWidth
          ∧ 600 ≤ (Settings.Load.dimensions s tree metrics log).settings.windowHeight
          ∧ (800 ≤ static_cast_uint32_t metrics.SM_CXSCREEN
              ∧ 600 ≤ static_cast_uint32_t metrics.SM_CYSCREEN →
            (Settings.Load.dimensions s tree metrics log).settings.windowWidth
                ≤ static_cast_uint32_t metrics.SM_CXSCREEN
              ∧ (Settings.Load.dimensions s tree metrics log).settings.windowHeight
                ≤ static_cast_uint32_t metrics.SM_CYSCREEN))
      ∧ ((Settings.Load.dimensions s tree metrics log).settings.windowMode
            = SC4WindowMode.FullScreen
          ∨ (Settings.Load.dimensions s tree metrics log).settings.windowMode
            = SC4WindowMode.BorderlessFullScreen →
        (Settings.Load.dimensions s tree metrics log).settings.windowWidth
            = static_cast_uint32_t metrics.SM_CXSCREEN
          ∧ (Settings.Load.dimensions s tree metrics log).settings.windowHeight
            = static_cast_uint32_t metrics.SM_CYSCREEN) := by
  revert h
  unfold Settings.Load.dimensions Settings.Load.windowed
  by_cases hd : s.colorDepth = 16 ∨ s.colorDepth = 32 <;>
    cases hm : s.windowMode <;>
    cases hw : tree.get_uint32 "GraphicsOptions.WindowWidth" <;>
    cases hh : tree.get_uint32 "GraphicsOptions.WindowHeight" <;>
    simp [hd, hm, hw, hh] <;> split_ifs <;> simp [hm] <;> omega

/-- C13: colour depth fallback.  For every configuration that loads successfully,
the resolved colour depth is the value of the file when that value is 16 or 32
and is 32 for every other value; hence it is always 16 or 32. -/
theorem load_color_depth (self : Settings) (tree : ptree) (metrics : SystemMetrics)
    (depth : Nat)
    (hload : (Settings.Load self (ConfigFile.parsed tree) metrics).thrown = none)
    (h5 : tree.get_uint32 "GraphicsOptions.ColorDepth" = some depth) :
    (Settings.Load self (ConfigFile.parsed tree) metrics).settings.colorDepth
        = (if depth = 16 ∨ depth = 32 then depth else 32)
      ∧ ((Settings.Load self (ConfigFile.parsed tree) metrics).settings.colorDepth = 16
        ∨ (Settings.Load self (ConfigFile.parsed tree) metrics).settings.colorDepth = 32) := by
  obtain ⟨iv, pf, dd, l1, mode, l2, depth1, h1, h2, h3, h4, h5a⟩ :=
    Load_returns self tree metrics hload
  rw [h5] at h5a
  obtain rfl : depth = depth1 := by simpa using h5a
  rw [Load_parsed self tree metrics iv pf dd l1 mode l2 depth h1 h2 h3 h4 h5,
    dimensions_colorDepth]
  constructor
  · rfl
  · show (if depth = 16 ∨ depth = 32 then depth else 32) = 16
      ∨ (if depth = 16 ∨ depth = 32 then depth else 32) = 32
    split_ifs with hd
    · exact hd
    · exact Or.inr rfl

/-- C13 (witness): `WindowMode=FullScreen`, `ColorDepth=64` resolves to 32. -/
theorem load_color_depth_witness :
    (Settings.Load Settings.ctor
        (ConfigFile.parsed (ptree.ofEntries
          [("GraphicsOptions.EnableIntroVideo", true),
            ("GraphicsOptions.PauseGameOnFocusLoss", false)]
          [("GraphicsOptions.ColorDepth", 64)]
          [("GraphicsOptions.Driver", "DirectX"), ("GraphicsOptions.WindowMode", "FullScreen")]))
        ⟨1920, 1080⟩).settings.colorDepth
        = (if 64 = 16 ∨ 64 = 32 then 64 else 32)
      ∧ ((Settings.Load Settings.ctor
        (ConfigFile.parsed (ptree.ofEntries
          [("GraphicsOptions.EnableIntroVideo", true),
            ("GraphicsOptions.PauseGameOnFocusLoss", false)]
          [("GraphicsOptions.ColorDepth", 64)]
          [("GraphicsOptions.Driver", "DirectX"), ("GraphicsOptions.WindowMode", "FullScreen")]))
        ⟨1920, 1080⟩).settings.colorDepth = 16
        ∨ (Settings.Load Settings.ctor
        (ConfigFile.parsed (ptree.ofEntries
          [("GraphicsOptions.EnableIntroVideo", true),
            ("GraphicsOptions.PauseGameOnFocusLoss", false)]
          [("GraphicsOptions.ColorDepth", 64)]
          [("GraphicsOptions.Driver", "DirectX"), ("GraphicsOptions.WindowMode", "FullScreen")]))
        ⟨1920, 1080⟩).settings.colorDepth = 32) :=
  load_color_depth Settings.ctor
    (ptree.ofEntries
      [("GraphicsOptions.EnableIntroVideo", true),
        ("GraphicsOptions.PauseGameOnFocusLoss", false)]
      [("GraphicsOptions.ColorDepth", 64)]
      [("GraphicsOptions.Driver", "DirectX"), ("GraphicsOptions.WindowMode", "FullScreen")])
    ⟨1920, 1080⟩ 64 (by decide) (by decide)

/-- C17: resolved-dimension invariant.  After every `Settings::Load` that returns
normally: if the resolved mode is `Windowed` then width >= 800 and height >= 600
and, when the primary display is at least 800x600, width and height do not exceed
the primary display; if the resolved mode is `FullScreen` or `BorderlessFullScreen`
then width and height are the primary display resolution (the `GetSystemMetrics`
values converted to `uint32_t`). -/
theorem load_dimension_invariant (self : Settings) (file : ConfigFile)
    (metrics : SystemMetrics)
    (hload : (Settings.Load self file metrics).thrown = none) :
    ((Settings.Load self file metrics).settings.windowMode = SC4WindowMode.Windowed →
        800 ≤ (Settings.Load self file metrics).settings.windowWidth
          ∧ 600 ≤ (Settings.Load self file metrics).settings.windowHeight
          ∧ (800 ≤ static_cast_uint32_t metrics.SM_CXSCREEN
              ∧ 600 ≤ static_cast_uint32_t metrics.SM_CYSCREEN →
            (Settings.Load self file metrics).settings.windowWidth
                ≤ static_cast_uint32_t metrics.SM_CXSCREEN
              ∧ (Settings.Load self file metrics).settings.windowHeight
                ≤ static_cast_uint32_t metrics.SM_CYSCREEN))
      ∧ ((Settings.Load self file metrics).settings.windowMode = SC4WindowMode.FullScreen
          ∨ (Settings.Load self file metrics).settings.windowMode
            = SC4WindowMode.BorderlessFullScreen →
        (Settings.Load self file metrics).settings.windowWidth
            = static_cast_uint32_t metrics.SM_CXSCREEN
          ∧ (Settings.Load self file metrics).settings.windowHeight
            = static_cast_uint32_t metrics.SM_CYSCREEN) := by
  cases file with
  | cannotOpen => simp [Settings.Load] at hload
  | malformed => simp [Settings.Load] at hload
  | parsed tree =>
    obtain ⟨iv, pf, dd, l1, mode, l2, depth, h1, h2, h3, h4, h5⟩ :=
      Load_returns self tree metrics hload
    rw [Load_parsed self tree metrics iv pf dd l1 mode l2 depth h1 h2 h3 h4 h5] at hload ⊢
    exact dimensions_invariant _ tree metrics _ hload

/-- C17 (witness): a 640x480 request on a 1920x1080 display loads as `Windowed`, so
the resolved size is at least 800x600 and within the display. -/
theorem load_dimension_invariant_witness :
    800 ≤ (Settings.Load Settings.ctor
        (ConfigFile.parsed (ptree.ofEntries
          [("GraphicsOptions.EnableIntroVideo", true),
            ("GraphicsOptions.PauseGameOnFocusLoss", false)]
          [("GraphicsOptions.ColorDepth", 32), ("GraphicsOptions.WindowWidth", 640),
            ("GraphicsOptions.WindowHeight", 480)]
          [("GraphicsOptions.Driver", "DirectX"), ("GraphicsOptions.WindowMode", "Windowed")]))
        ⟨1920, 1080⟩).settings.windowWidth
      ∧ 600 ≤ (Settings.Load Settings.ctor
        (ConfigFile.parsed (ptree.ofEntries
          [("GraphicsOptions.EnableIntroVideo", true),
            ("GraphicsOptions.PauseGameOnFocusLoss", false)]
          [("GraphicsOptions.ColorDepth", 32), ("GraphicsOptions.WindowWidth", 640),
            ("GraphicsOptions.WindowHeight", 480)]
          [("GraphicsOptions.Driver", "DirectX"), ("GraphicsOptions.WindowMode", "Windowed")]))
        ⟨1920, 1080⟩).settings.windowHeight
      ∧ (800 ≤ static_cast_uint32_t 1920 ∧ 600 ≤ static_cast_uint32_t 1080 →
        (Settings.Load Settings.ctor
          (ConfigFile.parsed (ptree.ofEntries
            [("GraphicsOptions.EnableIntroVideo", true),
              ("GraphicsOptions.PauseGameOnFocusLoss", false)]
            [("GraphicsOptions.ColorDepth", 32), ("GraphicsOptions.WindowWidth", 640),
              ("GraphicsOptions.WindowHeight", 480)]
            [("GraphicsOptions.Driver", "DirectX"), ("GraphicsOptions.WindowMode", "Windowed")]))
          ⟨1920, 1080⟩).settings.windowWidth ≤ static_cast_uint32_t 1920
          ∧ (Settings.Load Settings.ctor
          (ConfigFile.parsed (ptree.ofEntries
            [("GraphicsOptions.EnableIntroVideo", true),
              ("GraphicsOptions.PauseGameOnFocusLoss", false)]
            [("GraphicsOptions.ColorDepth", 32), ("GraphicsOptions.WindowWidth", 640),
              ("GraphicsOptions.WindowHeight", 480)]
            [("GraphicsOptions.Driver", "DirectX"), ("GraphicsOptions.WindowMode", "Windowed")]))
          ⟨1920, 1080⟩).settings.windowHeight ≤ static_cast_uint32_t 1080) :=
  (load_dimension_invariant Settings.ctor
    (ConfigFile.parsed (ptree.ofEntries
      [("GraphicsOptions.EnableIntroVideo", true),
        ("GraphicsOptions.PauseGameOnFocusLoss", false)]
      [("GraphicsOptions.ColorDepth", 32), ("GraphicsOptions.WindowWidth", 640),
        ("GraphicsOptions.WindowHeight", 480)]
      [("GraphicsOptions.Driver", "DirectX"), ("GraphicsOptions.WindowMode", "Windowed")]))
    ⟨1920, 1080⟩ (by decide)).1 (by decide)

/-! ## Theorems: window position and window show hooks -/

/-- C15: window-show hook.  For every handle and every requested show command,
`HookedShowWindow` makes exactly one call to `RealShowWindow`, with the handle as
requested and with the command `SW_SHOWMAXIMIZED` (3) when the handle equals the
tracked main-window handle and the mode is `BorderlessFullScreen`, and with the
requested command otherwise; it returns what the real call returns. -/
theorem show_window_hook (RealShowWindow : ShowWindowArgs → Bool) (st : HookState)
    (args : ShowWindowArgs) :
    (HookedShowWindow RealShowWindow st args).realCalls =
        [{ hWnd := args.hWnd,
           nCmdShow :=
             if args.hWnd = st.s_SC4MainWindowHWND
                 ∧ st.s_WindowMode = SC4WindowMode.BorderlessFullScreen then
               3
             else
               args.nCmdShow }]
      ∧ (HookedShowWindow RealShowWindow st args).returned
        = RealShowWindow
          { hWnd := args.hWnd,
            nCmdShow :=
              if args.hWnd = st.s_SC4MainWindowHWND
                  ∧ st.s_WindowMode = SC4WindowMode.BorderlessFullScreen then
                3
              else
                args.nCmdShow }
      ∧ SW_SHOWMAXIMIZED = 3 := by
  have hcmd : SW_SHOWMAXIMIZED = 3 := rfl
  refine ⟨?_, ?_, hcmd⟩
  · unfold HookedShowWindow
    rw [hcmd]
    by_cases hh : args.hWnd = st.s_SC4MainWindowHWND <;>
      by_cases hm : st.s_WindowMode = SC4WindowMode.BorderlessFullScreen <;>
      simp [hh, hm]
  · unfold HookedShowWindow
    rw [hcmd]
    by_cases hh : args.hWnd = st.s_SC4MainWindowHWND <;>
      by_cases hm : st.s_WindowMode = SC4WindowMode.BorderlessFullScreen <;>
      simp [hh, hm]

/-! ## Theorems: compatibility patcher and post-init verifier -/

/-- C16: colour-depth patch condition.  `FixFullScreen32BitColorDepth` calls
`OverwriteMemory` (once, with address 0x887738 and value 32) if and only if the
driver is DirectX, the window mode is `FullScreen`, the colour depth is 32 and the
game version is 641; a byte is stored only in that case and only when
`VirtualProtect` succeeds.  When the first three conditions hold and the version
differs, nothing is written and one Error line is logged; when one of the first
three fails, nothing is written and nothing is logged. -/
theorem fix_color_depth_condition (driverType : SC4GraphicsDriverType)
    (windowMode : SC4WindowMode) (colorDepth gameVersion : Nat)
    (virtualProtect : Nat → Bool) :
    (FixFullScreen32BitColorDepth driverType windowMode colorDepth gameVersion
        virtualProtect).overwriteMemoryCalls
        = (if driverType = SC4GraphicsDriverType.DirectX
              ∧ windowMode = SC4WindowMode.FullScreen ∧ colorDepth = 32
              ∧ gameVersion = 641 then
            [(0x887738, 32)]
          else
            [])
      ∧ (FixFullScreen32BitColorDepth driverType windowMode colorDepth gameVersion
        virtualProtect).memoryWrites
        = (if (driverType = SC4GraphicsDriverType.DirectX
                ∧ windowMode = SC4WindowMode.FullScreen ∧ colorDepth = 32
                ∧ gameVersion = 641)
              ∧ virtualProtect 0x887738 = true then
            [(0x887738, 32)]
          else
            [])
      ∧ ((FixFullScreen32BitColorDepth driverType windowMode colorDepth gameVersion
        virtualProtect).log.map LogLine.level
        = (if driverType = SC4GraphicsDriverType.DirectX
              ∧ windowMode = SC4WindowMode.FullScreen ∧ colorDepth = 32 then
            (if gameVersion = 641 then
              (if virtualProtect 0x887738 = true then [LogLevel.Info] else [LogLevel.Error])
            else
              [LogLevel.Error])
          else
            [])) := by
  unfold FixFullScreen32BitColorDepth OverwriteMemory
  by_cases hv : gameVersion = 641 <;> by_cases hd : colorDepth = 32 <;>
    cases hp : virtualProtect 0x887738 <;> cases driverType <;> cases windowMode <;>
    simp [hv, hd, hp]

/-- The two switches that choose the requested driver id, the one of
`SetGraphicsOptions` and the one of `VerifyGraphicsOptions`, agree. -/
theorem requestedDriver_eq (driverType : SC4GraphicsDriverType) :
    (VerifyGraphicsOptions.requestedDriver driverType).1
      = SetGraphicsOptions.requestedDriverID driverType := by
  cases driverType <;> rfl

/-- C18: request / verify round trip.  If the live state of the host is what
`SetGraphicsOptions` requested last (the metrics passed to
`PreInitSetDesiredGameResolution`, a full screen state that is the negation of the
value passed to `PreInitSetWindowedMode`, and an active driver whose class id is
the one passed to `SetDefaultDriverClassID`), `VerifyGraphicsOptions` logs nothing.
For every live state, each of its two blocks logs at most one line, of level
Error. -/
theorem verify_after_request (w h d : Nat) (m : SC4WindowMode) (t : SC4GraphicsDriverType)
    (host : GraphicSystemCalls) (live : GraphicSystemState) (activeDriver : Nat)
    (hmetrics : (SetGraphicsOptions true true w h d m t host).PreInitSetDesiredGameResolution.getLast?
      = some live.gameMetrics)
    (hmode : (SetGraphicsOptions true true w h d m t host).PreInitSetWindowedMode.getLast?
      = some (!live.isFullScreenMode))
    (hdriver : (SetGraphicsOptions true true w h d m t host).SetDefaultDriverClassID.getLast?
      = some activeDriver) :
    VerifyGraphicsOptions (some live) (some (some activeDriver)) w h d m t = []
      ∧ ∀ (pGS : Option GraphicSystemState) (pGS2 : Option (Option Nat)),
          (VerifyGraphicsOptions.geometry pGS w h d m).length ≤ 1
            ∧ (VerifyGraphicsOptions.driver pGS2 t).length ≤ 1
            ∧ (∀ line ∈ VerifyGraphicsOptions pGS pGS2 w h d m t,
                line.level = LogLevel.Error) := by
  constructor
  · simp only [SetGraphicsOptions, if_true, List.getLast?_concat, Option.some.injEq]
      at hmetrics hmode hdriver
    obtain ⟨⟨lw, lh, ld⟩, lf⟩ := live
    simp only [cGZDisplayMetrics.mk.injEq] at hmetrics
    obtain ⟨rfl, rfl, rfl⟩ := hmetrics
    subst hdriver
    have hfs : lf = (m == SC4WindowMode.FullScreen) := by
      cases lf <;> cases m <;> simp_all
    subst hfs
    cases m <;> cases t <;>
      simp [VerifyGraphicsOptions, VerifyGraphicsOptions.geometry, VerifyGraphicsOptions.driver,
        WindowModesMatch, requestedDriver_eq]
  · intro pGS pGS2
    refine ⟨?_, ?_, ?_⟩
    · unfold VerifyGraphicsOptions.geometry
      cases pGS with
      | none => simp
      | some gs =>
        dsimp only
        split <;> simp
    · unfold VerifyGraphicsOptions.driver
      rcases pGS2 with _ | _ | c
      · simp
      · simp
      · dsimp only
        split <;> simp
    · intro line hline
      unfold VerifyGraphicsOptions at hline
      rw [List.mem_append] at hline
      rcases hline with hl | hl
      · unfold VerifyGraphicsOptions.geometry at hl
        cases pGS with
        | none => simp at hl
        | some gs =>
          dsimp only at hl
          split at hl
          · simp only [List.mem_singleton] at hl
            rw [hl]
          · simp at hl
      · unfold VerifyGraphicsOptions.driver at hl
        rcases pGS2 with _ | _ | c
        · simp at hl
        · simp at hl
        · dsimp only at hl
          split at hl
          · simp only [List.mem_singleton] at hl
            rw [hl]
          · simp at hl

/-- C18 (witness): a borderless 1920x1080x32 OpenGL request on a host that reports
1920x1080x32, windowed, with the OpenGL driver active: nothing is logged. -/
theorem verify_after_request_witness :
    VerifyGraphicsOptions
        (some { gameMetrics := { width := 1920, height := 1080, bitDepth := 32 },
                isFullScreenMode := false })
        (some (some 0xC4554841)) 1920 1080 32 SC4WindowMode.BorderlessFullScreen
        SC4GraphicsDriverType.OpenGL = [] :=
  (verify_after_request 1920 1080 32 SC4WindowMode.BorderlessFullScreen
    SC4GraphicsDriverType.OpenGL
    { PreInitSetDesiredGameResolution := [],
      PreInitSetWindowedMode := [],
      SetDefaultDriverClassID := [] }
    { gameMetrics := { width := 1920, height := 1080, bitDepth := 32 },
      isFullScreenMode := false }
    0xC4554841 (by decide) (by decide) (by decide)).1

end SC4GraphicsOptions
